import Mathlib

/-!
Verification development for the two-stage dialogue pipeline of
`08-dialogue-app-v3.py`: the Draft Agent (`InitialDialogueAgent`), the
Style Agent (`StyleAdaptationAgent`), the artifact persistence layer
(`save_dialogue_data`, `update_dialogue_files`, `save_final_dialogue`,
`update_final_dialogue_files`) and the Streamlit edit/confirm loop of
`main`.

Modelling conventions
- Python dicts/lists/strings/ints/None are embedded as the `JSON` type below;
  `json.dump` followed by `json.load` on such a value is modelled as storing
  the value itself in the file-system map (the std round trip is faithful on
  this fragment).  `json.loads` on a raw string is modelled by an executable
  recursive-descent parser (`json_loads`) covering the JSON fragment this
  application produces (no floats, no \u escapes).
- The OpenAI gateway is an oracle `gw : String → Except String String`
  mapping a prompt to either response text or an API error; `call_llm_api`
  turns an error into Python's `None` exactly as the `try/except` does.
- File I/O is explicit state passing over an association list `FS`; a write
  may be made to raise by listing its path in a fault set, modelling the
  arbitrary I/O exceptions the `try/except` blocks of the store catch.
- Nondeterministic environment reads (`datetime.now().strftime`,
  `uuid.uuid4()`) are an `Env` parameter.
-/

namespace AgentResponse

/-- Embedding of the Python values that flow through this app:
`None`, bools, ints, strings, lists and string-keyed dicts. -/
inductive JSON where
  | null : JSON
  | bool (b : Bool) : JSON
  | num (n : Int) : JSON
  | str (s : String) : JSON
  | arr (xs : List JSON) : JSON
  | obj (fields : List (String × JSON)) : JSON
deriving Repr

mutual

def jsonDecEq : (a b : JSON) → Decidable (a = b)
  | .null, .null => isTrue rfl
  | .bool x, .bool y =>
    match decEq x y with
    | isTrue h => isTrue (by rw [h])
    | isFalse h => isFalse (fun e => h (by injection e))
  | .num x, .num y =>
    match decEq x y with
    | isTrue h => isTrue (by rw [h])
    | isFalse h => isFalse (fun e => h (by injection e))
  | .str x, .str y =>
    match decEq x y with
    | isTrue h => isTrue (by rw [h])
    | isFalse h => isFalse (fun e => h (by injection e))
  | .arr xs, .arr ys =>
    match jsonDecEqList xs ys with
    | isTrue h => isTrue (by rw [h])
    | isFalse h => isFalse (fun e => h (by injection e))
  | .obj xs, .obj ys =>
    match jsonDecEqFields xs ys with
    | isTrue h => isTrue (by rw [h])
    | isFalse h => isFalse (fun e => h (by injection e))
  | .null, .bool _ => isFalse (fun h => JSON.noConfusion h)
  | .null, .num _ => isFalse (fun h => JSON.noConfusion h)
  | .null, .str _ => isFalse (fun h => JSON.noConfusion h)
  | .null, .arr _ => isFalse (fun h => JSON.noConfusion h)
  | .null, .obj _ => isFalse (fun h => JSON.noConfusion h)
  | .bool _, .null => isFalse (fun h => JSON.noConfusion h)
  | .bool _, .num _ => isFalse (fun h => JSON.noConfusion h)
  | .bool _, .str _ => isFalse (fun h => JSON.noConfusion h)
  | .bool _, .arr _ => isFalse (fun h => JSON.noConfusion h)
  | .bool _, .obj _ => isFalse (fun h => JSON.noConfusion h)
  | .num _, .null => isFalse (fun h => JSON.noConfusion h)
  | .num _, .bool _ => isFalse (fun h => JSON.noConfusion h)
  | .num _, .str _ => isFalse (fun h => JSON.noConfusion h)
  | .num _, .arr _ => isFalse (fun h => JSON.noConfusion h)
  | .num _, .obj _ => isFalse (fun h => JSON.noConfusion h)
  | .str _, .null => isFalse (fun h => JSON.noConfusion h)
  | .str _, .bool _ => isFalse (fun h => JSON.noConfusion h)
  | .str _, .num _ => isFalse (fun h => JSON.noConfusion h)
  | .str _, .arr _ => isFalse (fun h => JSON.noConfusion h)
  | .str _, .obj _ => isFalse (fun h => JSON.noConfusion h)
  | .arr _, .null => isFalse (fun h => JSON.noConfusion h)
  | .arr _, .bool _ => isFalse (fun h => JSON.noConfusion h)
  | .arr _, .num _ => isFalse (fun h => JSON.noConfusion h)
  | .arr _, .str _ => isFalse (fun h => JSON.noConfusion h)
  | .arr _, .obj _ => isFalse (fun h => JSON.noConfusion h)
  | .obj _, .null => isFalse (fun h => JSON.noConfusion h)
  | .obj _, .bool _ => isFalse (fun h => JSON.noConfusion h)
  | .obj _, .num _ => isFalse (fun h => JSON.noConfusion h)
  | .obj _, .str _ => isFalse (fun h => JSON.noConfusion h)
  | .obj _, .arr _ => isFalse (fun h => JSON.noConfusion h)

def jsonDecEqList : (xs ys : List JSON) → Decidable (xs = ys)
  | [], [] => isTrue rfl
  | [], _ :: _ => isFalse (fun h => List.noConfusion h)
  | _ :: _, [] => isFalse (fun h => List.noConfusion h)
  | x :: xs, y :: ys =>
    match jsonDecEq x y with
    | isFalse h1 => isFalse (fun e => h1 (by injection e))
    | isTrue h1 =>
      match jsonDecEqList xs ys with
      | isTrue h2 => isTrue (by rw [h1, h2])
      | isFalse h2 => isFalse (fun e => h2 (by injection e))

def jsonDecEqFields : (xs ys : List (String × JSON)) → Decidable (xs = ys)
  | [], [] => isTrue rfl
  | [], _ :: _ => isFalse (fun h => List.noConfusion h)
  | _ :: _, [] => isFalse (fun h => List.noConfusion h)
  | (k1, v1) :: xs, (k2, v2) :: ys =>
    match decEq k1 k2 with
    | isFalse hk => isFalse (fun e => by
        injection e with hp ht
        injection hp with hk2 hv2
        exact absurd hk2 hk)
    | isTrue hk =>
      match jsonDecEq v1 v2 with
      | isFalse hv => isFalse (fun e => by
          injection e with hp ht
          injection hp with hk2 hv2
          exact absurd hv2 hv)
      | isTrue hv =>
        match jsonDecEqFields xs ys with
        | isTrue ht => isTrue (by rw [hk, hv, ht])
        | isFalse ht => isFalse (fun e => ht (by injection e))

end

instance : DecidableEq JSON := jsonDecEq

/-- Python truthiness on embedded values (`if dialogue_data:` and friends). -/
def pyTruthy : JSON → Bool
  | .null => false
  | .bool b => b
  | .num n => n ≠ 0
  | .str s => s ≠ ""
  | .arr xs => !xs.isEmpty
  | .obj fields => !fields.isEmpty

/-- Key lookup on a dict (`d["k"]` / `"k" in d`); `none` when the key is
absent or the value is not a dict. -/
def jlookup : JSON → String → Option JSON
  | .obj fields, k => (fields.find? (fun kv => kv.1 = k)).map (·.2)
  | _, _ => none

/-- `d.get(k, default)`. -/
def jget (j : JSON) (k : String) (dflt : JSON) : JSON :=
  (jlookup j k).getD dflt

/-- Replace the binding of `k` in place or append it at the end: Python
`d[k] = v` on a dict (keys are unique in every dict this app builds). -/
def setField : List (String × JSON) → String → JSON → List (String × JSON)
  | [], k, v => [(k, v)]
  | (k1, v1) :: rest, k, v =>
      if k1 = k then (k, v) :: rest else (k1, v1) :: setField rest k v

/-- `d.copy()` followed by `d[k] = v`.  `none` models the
`TypeError`/`AttributeError` raised when the receiver is not a dict. -/
def objSet : JSON → String → JSON → Option JSON
  | .obj fields, k, v => some (.obj (setField fields k v))
  | _, _, _ => none

/-- `str(value)` as used inside f-strings when list items are interpolated.
Exact repr of containers is irrelevant to every claim; scalars are faithful. -/
def pyStr : JSON → String
  | .null => "None"
  | .bool true => "True"
  | .bool false => "False"
  | .num n => toString n
  | .str s => s
  | .arr _ => "[...]"
  | .obj _ => "{...}"

/-! ### `json.loads` on raw response text -/

def isWsChar (c : Char) : Bool :=
  c = ' ' || c = '\n' || c = '\t' || c = '\r'

def skipWs : List Char → List Char
  | [] => []
  | c :: rest => if isWsChar c then skipWs rest else c :: rest

/-- Scan a JSON string body after the opening quote, handling the common
escapes (`\u` escapes are not produced by this app and are unmodelled). -/
def parseStringBody : List Char → List Char → Option (String × List Char)
  | [], _ => none
  | c :: rest, acc =>
    if c = '"' then some (String.mk acc.reverse, rest)
    else if c = '\\' then
      match rest with
      | [] => none
      | e :: rest2 =>
        if e = '"' ∨ e = '\\' ∨ e = '/' then parseStringBody rest2 (e :: acc)
        else if e = 'n' then parseStringBody rest2 ('\n' :: acc)
        else if e = 't' then parseStringBody rest2 ('\t' :: acc)
        else if e = 'r' then parseStringBody rest2 ('\r' :: acc)
        else none
    else parseStringBody rest (c :: acc)

def digitsToNat (ds : List Char) : Nat :=
  ds.foldl (fun n c => n * 10 + (c.toNat - '0'.toNat)) 0

/-- Integer literals (this app's artifacts contain no floats). -/
def parseNumberTok : List Char → Option (JSON × List Char)
  | '-' :: rest =>
      let ds := rest.takeWhile Char.isDigit
      if ds.isEmpty then none
      else some (.num (-(digitsToNat ds : Int)), rest.dropWhile Char.isDigit)
  | l =>
      let ds := l.takeWhile Char.isDigit
      if ds.isEmpty then none
      else some (.num (digitsToNat ds), l.dropWhile Char.isDigit)

def stripLit : List Char → List Char → Option (List Char)
  | [], l => some l
  | c :: cs, d :: ds => if c = d then stripLit cs ds else none
  | _ :: _, [] => none

mutual

def parseVal : Nat → List Char → Option (JSON × List Char)
  | 0, _ => none
  | fuel + 1, l =>
    match l with
    | [] => none
    | c :: rest =>
      if c = '{' then parseObjTail fuel (skipWs rest) []
      else if c = '[' then parseArrTail fuel (skipWs rest) []
      else if c = '"' then
        match parseStringBody rest [] with
        | some (s, r) => some (.str s, r)
        | none => none
      else if c = 't' then (stripLit ['r', 'u', 'e'] rest).map (fun r => (.bool true, r))
      else if c = 'f' then (stripLit ['a', 'l', 's', 'e'] rest).map (fun r => (.bool false, r))
      else if c = 'n' then (stripLit ['u', 'l', 'l'] rest).map (fun r => (.null, r))
      else parseNumberTok (c :: rest)

/-- Members of an object, entered just past `\x7b` (or a comma), whitespace
already skipped. -/
def parseObjTail : Nat → List Char → List (String × JSON) → Option (JSON × List Char)
  | 0, _, _ => none
  | fuel + 1, l, acc =>
    match l with
    | '}' :: rest => if acc.isEmpty then some (.obj [], rest) else none
    | '"' :: rest =>
      match parseStringBody rest [] with
      | none => none
      | some (k, r1) =>
        match skipWs r1 with
        | ':' :: r2 =>
          match parseVal fuel (skipWs r2) with
          | none => none
          | some (v, r3) =>
            match skipWs r3 with
            | ',' :: r4 => parseObjTail fuel (skipWs r4) ((k, v) :: acc)
            | '}' :: r4 => some (.obj ((k, v) :: acc).reverse, r4)
            | _ => none
        | _ => none
    | _ => none

/-- Items of an array, entered just past `[` (or a comma). -/
def parseArrTail : Nat → List Char → List JSON → Option (JSON × List Char)
  | 0, _, _ => none
  | fuel + 1, l, acc =>
    match l with
    | ']' :: rest => if acc.isEmpty then some (.arr [], rest) else none
    | l' =>
      match parseVal fuel l' with
      | none => none
      | some (v, r1) =>
        match skipWs r1 with
        | ',' :: r2 => parseArrTail fuel (skipWs r2) (v :: acc)
        | ']' :: r2 => some (.arr (v :: acc).reverse, r2)
        | _ => none

end

/-- `json.loads`: parse one value, demand the remainder be whitespace
("Extra data" otherwise).  `none` models `json.JSONDecodeError`. -/
def json_loads (s : String) : Option JSON :=
  match parseVal (2 * s.length + 4) (skipWs s.data) with
  | some (v, rest) => if (skipWs rest).isEmpty then some v else none
  | none => none

/-! ### Completion Gateway and Draft Agent (`DialogueAgent`, `InitialDialogueAgent`) -/

/-- `DialogueAgent.call_llm_api`: the gateway oracle `gw` maps a prompt to
either response text or an API error; the `try/except` turns any error
into `None`. -/
def call_llm_api (gw : String → Except String String) (prompt : String) : Option String :=
  match gw prompt with
  | .ok t => some t
  | .error _ => none

/-- `InitialDialogueAgent._build_generation_prompt` (f-string indentation of
the Python triple-quoted literal is not reproduced). -/
def build_generation_prompt (context dialogue_mode goal language difficulty : String)
    (num_turns : Nat) : String :=
  "作为一个专业的对话生成 AI，请根据以下要求创建一段对话：\n\n"
    ++ "对话背景: " ++ context ++ "\n"
    ++ "对话模式: " ++ dialogue_mode ++ "\n"
    ++ "对话目标: " ++ goal ++ "\n"
    ++ "语言要求: " ++ language ++ "\n"
    ++ "内容难度: " ++ difficulty ++ "\n"
    ++ "对话轮数: " ++ toString num_turns ++ "轮\n\n"
    ++ "请生成一段自然流畅的对话，包含以下内容并以 JSON 格式返回:\n"
    ++ "1. 对话原始文本\n2. 情节关键节点\n3. 对话中隐含的意图与目标\n\n"
    ++ "返回格式示例:\n\x7b\n    \"original_text\": \"对话原始文本\",\n"
    ++ "    \"key_points\": [\"关键点1\", \"关键点2\"],\n"
    ++ "    \"intentions\": [\"意图1\", \"意图2\"]\n\x7d\n"

/-- `response.find(c)` under the guard `c in response` (Python's `-1` for a
missing character never reaches the slice in this program). -/
def pyFind (s : String) (c : Char) : Nat := s.data.findIdx (· = c)

/-- `response.rfind(c)` under the guard `c in response`: index of the last
occurrence. -/
def pyRfind (s : String) (c : Char) : Nat :=
  s.data.length - 1 - s.data.reverse.findIdx (· = c)

/-- `response[json_start:json_end]` with
`json_start = response.find(chr(123))` and
`json_end = response.rfind(chr(125)) + 1`. -/
def extracted_json_str (response : String) : String :=
  let json_start := pyFind response '{'
  let json_end := pyRfind response '}' + 1
  String.mk ((response.data.drop json_start).take (json_end - json_start))

/-- The degraded Draft built when the response is not parsed:
`\x7b"original_text": response, "key_points": [], "intentions": []\x7d`,
where `response` may be Python `None`. -/
def fallback_dialogue (response : Option String) : JSON :=
  .obj [("original_text", match response with | none => .null | some r => .str r),
        ("key_points", .arr []),
        ("intentions", .arr [])]

/-- `InitialDialogueAgent.generate_dialogue`. -/
def generate_dialogue (gw : String → Except String String)
    (context dialogue_mode goal language difficulty : String) (num_turns : Nat) : JSON :=
  let prompt := build_generation_prompt context dialogue_mode goal language difficulty num_turns
  let response := call_llm_api gw prompt
  match response with
  | some r =>
    if (r != "") && r.data.contains '{' && r.data.contains '}' then
      match json_loads (extracted_json_str r) with
      | some dialogue_data => dialogue_data
      | none => fallback_dialogue (some r)
    else fallback_dialogue (some r)
  | none => fallback_dialogue none

/-! Spec-side definitions used to compare the code's extraction with the
specified one (C2). -/

def balancedSpanAux : List Char → Nat → List Char → Option String
  | [], _, _ => none
  | c :: rest, depth, acc =>
    if c = '{' then balancedSpanAux rest (depth + 1) (c :: acc)
    else if c = '}' then
      if depth = 1 then some (String.mk (c :: acc).reverse)
      else balancedSpanAux rest (depth - 1) (c :: acc)
    else balancedSpanAux rest depth (c :: acc)

/-- Modelled from the spec: "scan the raw text for the first balanced
`\x7b...\x7d` span" — the substring starting at the first opening brace and
ending at the brace that closes it. -/
def firstBalancedSpan (s : String) : Option String :=
  balancedSpanAux (s.data.dropWhile (· ≠ '{')) 0 []

/-- The span the code actually extracts, stated without index arithmetic:
everything from the first opening brace through the last closing brace
(empty when the last closing brace precedes the first opening one). -/
def spanFirstToLastBrace (s : String) : String :=
  String.mk (((s.data.dropWhile (· ≠ '{')).reverse.dropWhile (· ≠ '}')).reverse)

/-! ### Style Agent (`StyleAdaptationAgent`) -/

/-- `bool(re.search(r'[一-鿿]', original_text))`. -/
def has_chinese (s : String) : Bool :=
  s.data.any (fun c => 0x4e00 ≤ c.toNat && c.toNat ≤ 0x9fff)

/-- The `if not language:` detection step of `_build_adaptation_prompt`;
Python falsiness of the hint covers both `None` and the empty string. -/
def resolve_language (language : Option String) (original_text : String) : String :=
  if language.getD "" = "" then
    if has_chinese original_text then "中文" else "英文"
  else language.getD ""

/-- `d.get(k, [])` followed by iteration; iterating a value that is not a
list (never produced by this app's drafts) is unmodelled. -/
def jgetListD (j : JSON) (k : String) : Option (List JSON) :=
  match jlookup j k with
  | none => some []
  | some (.arr xs) => some xs
  | some _ => none

/-- `"\n".join([f"- \x7bpoint\x7d" for point in items])`. -/
def bullet_lines (items : List JSON) : String :=
  String.intercalate "\n" (items.map (fun p => "- " ++ pyStr p))

/-- The English-language prompt branch of `_build_adaptation_prompt`
(triple-quoted indentation not reproduced). -/
def english_adaptation_template (original_text key_points_text intentions_text
    user_traits ai_traits : String) : String :=
  "As a professional dialogue stylist AI, your task is to rewrite the original dialogue based on the given character traits while maintaining the same plot points and intentions of the original dialogue. Please keep the output in English.\n\n"
    ++ "## Original Dialogue Information\nOriginal dialogue text:\n" ++ original_text ++ "\n\n"
    ++ "Key points:\n" ++ key_points_text ++ "\n\n"
    ++ "Dialogue intentions:\n" ++ intentions_text ++ "\n\n"
    ++ "## Character Traits\nUser character traits: " ++ user_traits ++ "\n"
    ++ "AI character traits: " ++ ai_traits ++ "\n\n"
    ++ "Please follow these requirements:\n"
    ++ "1. Maintain all key points and intentions from the original dialogue\n"
    ++ "2. Adjust the dialogue style, tone, and descriptions according to the character traits\n"
    ++ "3. Keep the format of the dialogue with clear speaker distinctions\n"
    ++ "4. IMPORTANT: Keep the output in the SAME LANGUAGE as the original dialogue (English)\n"
    ++ "5. Only return the rewritten dialogue text without additional explanations\n"

/-- The Chinese-language prompt branch of `_build_adaptation_prompt`. -/
def chinese_adaptation_template (original_text key_points_text intentions_text
    user_traits ai_traits : String) : String :=
  "作为一个专业的对话风格改编 AI，你的任务是将原始对话根据给定的角色特质进行改编，同时保持原始对话的情节和意图不变。\n\n"
    ++ "## 原始对话信息\n对话原文：\n" ++ original_text ++ "\n\n"
    ++ "关键节点：\n" ++ key_points_text ++ "\n\n"
    ++ "对话意图：\n" ++ intentions_text ++ "\n\n"
    ++ "## 角色特质\n用户角色特质: " ++ user_traits ++ "\nAI 角色特质: " ++ ai_traits ++ "\n\n"
    ++ "请按照以下要求进行改编：\n"
    ++ "1. 保持原始对话的全部关键节点和意图\n"
    ++ "2. 根据用户和 AI 的角色特质调整对话风格、语调和描述方式\n"
    ++ "3. 请保持对话的格式，包括清晰的说话人区分\n"
    ++ "4. 重要提示：请保持输出语言与原始对话相同（中文）\n"
    ++ "5. 请只返回改编后的对话文本，不需要额外的解释\n"

/-- `StyleAdaptationAgent._build_adaptation_prompt`.  `none` models the
`TypeError` raised when `key_points`/`intentions` is not a sequence. -/
def build_adaptation_prompt (dialogue_data : JSON) (user_traits ai_traits : String)
    (language : Option String) : Option String := do
  let original_text := pyStr (jget dialogue_data "original_text" (.str ""))
  let kps ← jgetListD dialogue_data "key_points"
  let ints ← jgetListD dialogue_data "intentions"
  let key_points_text := bullet_lines kps
  let intentions_text := bullet_lines ints
  let lang := resolve_language language original_text
  if lang = "英文" then
    some (english_adaptation_template original_text key_points_text intentions_text
      user_traits ai_traits)
  else
    some (chinese_adaptation_template original_text key_points_text intentions_text
      user_traits ai_traits)

/-- `StyleAdaptationAgent.adapt_dialogue`. -/
def adapt_dialogue (gw : String → Except String String) (dialogue_data : JSON)
    (user_traits ai_traits : String) (language : Option String) : Option String := do
  let prompt ← build_adaptation_prompt dialogue_data user_traits ai_traits language
  call_llm_api gw prompt

/-! ### Artifact Store

File contents: structured files hold the JSON value (`json.dump`/`json.load`
round trip on this fragment), rendered files hold markdown text.  A path in
`faults` makes its write raise, modelling arbitrary I/O errors caught by the
store's `try/except`.  Directory creation and partially-written markdown are
not tracked (no claim observes them). -/

structure Env where
  timestamp : String
  uuid8 : String
deriving Repr, DecidableEq

inductive FileData where
  | jsonF (j : JSON)
  | textF (s : String)
deriving Repr, DecidableEq

abbrev FS := List (String × FileData)

def fsRead (fs : FS) (path : String) : Option FileData :=
  (fs.find? (fun e => e.1 = path)).map (·.2)

def fsWrite : FS → String → FileData → FS
  | [], path, d => [(path, d)]
  | (p1, d1) :: rest, path, d =>
      if p1 = path then (path, d) :: rest else (p1, d1) :: fsWrite rest path d

def tryWrite (faults : List String) (fs : FS) (path : String) (d : FileData) : Option FS :=
  if faults.contains path then none else some (fsWrite fs path d)

/-- `re.sub(r'[^\w\s-]', '', context)[:20].strip().replace(' ', '_')`
(ASCII reading of `\w`; no claim observes this fragment's content). -/
def safe_context_frag (context : String) : String :=
  let kept := context.data.filter (fun c => c.isAlphanum || c = '_' || c.isWhitespace || c = '-')
  let cut := kept.take 20
  let stripped := ((cut.dropWhile Char.isWhitespace).reverse.dropWhile Char.isWhitespace).reverse
  String.mk (stripped.map (fun c => if c = ' ' then '_' else c))

def fresh_metadata (env : Env) (context goal : String) : JSON :=
  .obj [("timestamp", .str env.timestamp), ("context", .str context), ("goal", .str goal)]

def take30 (s : String) : String := String.mk (s.data.take 30)

def optStr : Option String → JSON
  | none => .null
  | some s => .str s

/-- `d.get(k, dflt)` when the receiver must be a dict (`AttributeError`
otherwise, caught by the surrounding handler). -/
def py_dict_get (d : JSON) (k : String) (dflt : JSON) : Option JSON :=
  match d with
  | .obj _ => some (jget d k dflt)
  | _ => none

/-- One optional bulleted markdown section: `if d.get(k):` then one
`- item` line per element (plus `trailing`); skipped when absent or falsy. -/
def md_list_section (heading : String) (v : Option JSON) (trailing : String) :
    Option String :=
  match v with
  | none => some ""
  | some j =>
    if pyTruthy j then
      match j with
      | .arr xs => some (heading ++ String.join (xs.map (fun p => "- " ++ pyStr p ++ "\n")) ++ trailing)
      | _ => none
    else some ""

/-- The markdown document `save_dialogue_data` renders. -/
def md_draft_content (context timestamp goal : String) (dialogue_data : JSON) :
    Option String := do
  let ot ← (match jget dialogue_data "original_text" (.str "") with
            | .str s => some s
            | _ => none)
  let kp ← md_list_section "## 关键节点\n\n" (jlookup dialogue_data "key_points") "\n"
  let its ← md_list_section "## 对话意图\n\n" (jlookup dialogue_data "intentions") ""
  some ("# 对话记录: " ++ take30 context ++ "...\n\n"
    ++ "**生成时间**: " ++ timestamp ++ "\n\n"
    ++ "**对话背景**: " ++ context ++ "\n\n"
    ++ "**对话目标**: " ++ goal ++ "\n\n"
    ++ "## 对话内容\n\n```\n" ++ ot ++ "\n```\n\n"
    ++ kp ++ its)

/-- `save_dialogue_data`: fresh metadata is attached, then the JSON file and
the markdown file are written in this order; any raise is caught and
surfaced as the `(None, None)` sentinel. -/
def save_dialogue_data (faults : List String) (env : Env) (fs : FS)
    (dialogue_data : JSON) (context goal : String) : FS × Option (String × String) :=
  let base := env.timestamp ++ "_" ++ safe_context_frag context ++ "_" ++ env.uuid8
  let json_filename := "dialogue_data/" ++ base ++ ".json"
  let md_filename := "dialogue_data/" ++ base ++ ".md"
  match objSet dialogue_data "metadata" (fresh_metadata env context goal) with
  | none => (fs, none)
  | some dmeta =>
    match tryWrite faults fs json_filename (.jsonF dmeta) with
    | none => (fs, none)
    | some fs1 =>
      match md_draft_content context env.timestamp goal dialogue_data with
      | none => (fs1, none)
      | some md =>
        match tryWrite faults fs1 md_filename (.textF md) with
        | none => (fs1, none)
        | some fs2 => (fs2, some (json_filename, md_filename))

/-- `os.path.splitext(p)[0]`. -/
def splitext_base (p : String) : String :=
  match p.data.reverse.findIdx? (· = '.') with
  | none => p
  | some k => String.mk (p.data.take (p.data.length - k - 1))

/-- The markdown document `update_dialogue_files` renders (header drawn from
the recovered metadata with the caller's values as defaults). -/
def md_update_content (metadata : JSON) (context goal : String)
    (dialogue_data : JSON) : Option String := do
  let ts ← py_dict_get metadata "timestamp" (.str "")
  let ctx ← py_dict_get metadata "context" (.str context)
  let gl ← py_dict_get metadata "goal" (.str goal)
  let ot ← (match jget dialogue_data "original_text" (.str "") with
            | .str s => some s
            | _ => none)
  let kp ← md_list_section "## 关键节点\n\n" (jlookup dialogue_data "key_points") "\n"
  let its ← md_list_section "## 对话意图\n\n" (jlookup dialogue_data "intentions") ""
  some ("# 对话记录: " ++ take30 context ++ "...\n\n"
    ++ "**生成时间**: " ++ pyStr ts ++ "\n\n"
    ++ "**对话背景**: " ++ pyStr ctx ++ "\n\n"
    ++ "**对话目标**: " ++ pyStr gl ++ "\n\n"
    ++ "## 对话内容\n\n```\n" ++ ot ++ "\n```\n\n"
    ++ kp ++ its)

/-- `update_dialogue_files`: falls back to `save_dialogue_data` when the
path is falsy or missing; otherwise recovers `metadata` from the existing
structured file (fresh metadata if that file fails to decode), forces it
onto the new record and rewrites both files at the same paths. -/
def update_dialogue_files (faults : List String) (env : Env) (fs : FS)
    (json_path : Option String) (dialogue_data : JSON) (context goal : String) :
    FS × Option (String × String) :=
  match json_path with
  | none => save_dialogue_data faults env fs dialogue_data context goal
  | some jp =>
    if jp = "" || (fsRead fs jp).isNone then
      save_dialogue_data faults env fs dialogue_data context goal
    else
      let md_path := splitext_base jp ++ ".md"
      let metadata :=
        match fsRead fs jp with
        | some (.jsonF j) => (jlookup j "metadata").getD (.obj [])
        | _ => fresh_metadata env context goal
      match objSet dialogue_data "metadata" metadata with
      | none => (fs, none)
      | some dmeta =>
        match tryWrite faults fs jp (.jsonF dmeta) with
        | none => (fs, none)
        | some fs1 =>
          match md_update_content metadata context goal dialogue_data with
          | none => (fs1, none)
          | some md =>
            match tryWrite faults fs1 md_path (.textF md) with
            | none => (fs1, none)
            | some fs2 => (fs2, some (jp, md_path))

/-- The shared "初始对话内容" block of both final-dialogue markdown
documents. -/
def md_initial_dialogue_section (initial_dialogue_data : JSON) : Option String :=
  if pyTruthy initial_dialogue_data && (jlookup initial_dialogue_data "original_text").isSome
  then do
    let ot ← (match jget initial_dialogue_data "original_text" (.str "") with
              | .str s => some s
              | _ => none)
    let kp ← md_list_section "### 关键节点\n\n" (jlookup initial_dialogue_data "key_points") "\n"
    let its ← md_list_section "### 对话意图\n\n" (jlookup initial_dialogue_data "intentions") ""
    some ("## 初始对话内容\n\n```\n" ++ ot ++ "\n```\n\n" ++ kp ++ its)
  else some ""

/-- The markdown document `save_final_dialogue` renders. -/
def md_final_content (context timestamp goal user_traits ai_traits : String)
    (dialogue_text : Option String) (initial_dialogue_data : JSON) : Option String := do
  let dt ← dialogue_text
  let initialSection ← md_initial_dialogue_section initial_dialogue_data
  some ("# 最终对话: " ++ take30 context ++ "...\n\n"
    ++ "**生成时间**: " ++ timestamp ++ "\n\n"
    ++ "**对话背景**: " ++ context ++ "\n\n"
    ++ "**对话目标**: " ++ goal ++ "\n\n"
    ++ "## 角色特质\n\n**用户角色特质**: " ++ user_traits ++ "\n\n**AI 角色特质**: " ++ ai_traits ++ "\n\n"
    ++ "## 最终对话内容\n\n```\n" ++ dt ++ "\n```\n\n"
    ++ initialSection)

/-- `save_final_dialogue`: `context`/`goal` are recovered from the origin
draft's metadata, but the persisted metadata carries a *fresh* timestamp. -/
def save_final_dialogue (faults : List String) (env : Env) (fs : FS)
    (dialogue_text : Option String) (initial_dialogue_data : JSON)
    (user_traits ai_traits : String) : FS × Option (String × String) :=
  let metadata :=
    if pyTruthy initial_dialogue_data && (jlookup initial_dialogue_data "metadata").isSome
    then (jlookup initial_dialogue_data "metadata").getD (.obj [])
    else .obj []
  match py_dict_get metadata "context" (.str ""), py_dict_get metadata "goal" (.str "") with
  | some (.str context), some (.str goal) =>
    let base := env.timestamp ++ "_" ++ safe_context_frag context ++ "_final_" ++ env.uuid8
    let json_filename := "final_dialogue_data/" ++ base ++ ".json"
    let md_filename := "final_dialogue_data/" ++ base ++ ".md"
    let final_dialogue_data : JSON := .obj
      [("final_text", optStr dialogue_text),
       ("user_traits", .str user_traits),
       ("ai_traits", .str ai_traits),
       ("original_dialogue", initial_dialogue_data),
       ("metadata", .obj [("timestamp", .str env.timestamp),
                          ("context", .str context), ("goal", .str goal)])]
    match tryWrite faults fs json_filename (.jsonF final_dialogue_data) with
    | none => (fs, none)
    | some fs1 =>
      match md_final_content context env.timestamp goal user_traits ai_traits
          dialogue_text initial_dialogue_data with
      | none => (fs1, none)
      | some md =>
        match tryWrite faults fs1 md_filename (.textF md) with
        | none => (fs1, none)
        | some fs2 => (fs2, some (json_filename, md_filename))
  | _, _ => (fs, none)

/-- The markdown document `update_final_dialogue_files` renders (header
drawn entirely from the record's metadata). -/
def md_update_final_content (metadata : JSON) (user_traits ai_traits : String)
    (dialogue_text : Option String) (initial_dialogue_data : JSON) : Option String := do
  let ctx ← (match py_dict_get metadata "context" (.str "") with
             | some (.str s) => some s
             | _ => none)
  let ts ← py_dict_get metadata "timestamp" (.str "")
  let gl ← py_dict_get metadata "goal" (.str "")
  let dt ← dialogue_text
  let initialSection ← md_initial_dialogue_section initial_dialogue_data
  some ("# 最终对话: " ++ take30 ctx ++ "...\n\n"
    ++ "**生成时间**: " ++ pyStr ts ++ "\n\n"
    ++ "**对话背景**: " ++ ctx ++ "\n\n"
    ++ "**对话目标**: " ++ pyStr gl ++ "\n\n"
    ++ "## 角色特质\n\n**用户角色特质**: " ++ user_traits ++ "\n\n**AI 角色特质**: " ++ ai_traits ++ "\n\n"
    ++ "## 最终对话内容\n\n```\n" ++ dt ++ "\n```\n\n"
    ++ initialSection)

/-- `update_final_dialogue_files`: falls back to `save_final_dialogue` when
the path is falsy or missing; otherwise the metadata is taken wholesale from
the caller-supplied origin draft (fresh, empty-context metadata when the
draft has none) — the existing structured file is never read. -/
def update_final_dialogue_files (faults : List String) (env : Env) (fs : FS)
    (json_path : Option String) (dialogue_text : Option String)
    (initial_dialogue_data : JSON) (user_traits ai_traits : String) :
    FS × Option (String × String) :=
  match json_path with
  | none => save_final_dialogue faults env fs dialogue_text initial_dialogue_data user_traits ai_traits
  | some jp =>
    if jp = "" || (fsRead fs jp).isNone then
      save_final_dialogue faults env fs dialogue_text initial_dialogue_data user_traits ai_traits
    else
      let md_path := splitext_base jp ++ ".md"
      let metadata :=
        if pyTruthy initial_dialogue_data && (jlookup initial_dialogue_data "metadata").isSome
        then (jlookup initial_dialogue_data "metadata").getD (.obj [])
        else .obj [("timestamp", .str env.timestamp), ("context", .str ""), ("goal", .str "")]
      let final_dialogue_data : JSON := .obj
        [("final_text", optStr dialogue_text),
         ("user_traits", .str user_traits),
         ("ai_traits", .str ai_traits),
         ("original_dialogue", initial_dialogue_data),
         ("metadata", metadata)]
      match tryWrite faults fs jp (.jsonF final_dialogue_data) with
      | none => (fs, none)
      | some fs1 =>
        match md_update_final_content metadata user_traits ai_traits
            dialogue_text initial_dialogue_data with
        | none => (fs1, none)
        | some md =>
          match tryWrite faults fs1 md_path (.textF md) with
          | none => (fs1, none)
          | some fs2 => (fs2, some (jp, md_path))

/-! ### Orchestration Controller (`main`)

The human-in-the-loop draft edit loop (lines 689–714): the editor fields
are diffed against the stored draft; a difference sets `dialogue_edited`
and replaces the stored draft; the confirm button invokes
`update_dialogue_files` iff `dialogue_edited` is set.  The flag is set on a
differing edit and cleared only when a fresh draft is generated — never by
a confirm. -/

structure DraftContent where
  original_text : String
  key_points : List String
  intentions : List String
deriving Repr, DecidableEq

structure EditLoopState where
  dialogue_data : DraftContent
  dialogue_edited : Bool
  update_calls : Nat
deriving Repr, DecidableEq

/-- Session state right after `generate_dialogue` succeeded
(`st.session_state.dialogue_edited = False`). -/
def init_edit_state (d : DraftContent) : EditLoopState :=
  { dialogue_data := d, dialogue_edited := false, update_calls := 0 }

/-- Lines 694–703: the field-by-field dirty check. -/
def edit_step (s : EditLoopState) (edited : DraftContent) : EditLoopState :=
  if edited.original_text ≠ s.dialogue_data.original_text
      ∨ edited.key_points ≠ s.dialogue_data.key_points
      ∨ edited.intentions ≠ s.dialogue_data.intentions then
    { dialogue_data := edited, dialogue_edited := true, update_calls := s.update_calls }
  else s

/-- Lines 706–714: the confirm button; `update_dialogue_files` runs iff the
dirty flag is set, and the flag is not cleared afterwards. -/
def confirm_step (s : EditLoopState) : EditLoopState :=
  if s.dialogue_edited then { s with update_calls := s.update_calls + 1 } else s

inductive EditAction where
  | edit (c : DraftContent)
  | confirm
deriving Repr, DecidableEq

def run_edit_loop : EditLoopState → List EditAction → EditLoopState
  | s, [] => s
  | s, .edit c :: rest => run_edit_loop (edit_step s c) rest
  | s, .confirm :: rest => run_edit_loop (confirm_step s) rest

/-! The "生成初始对话" button handler (lines 602–657), including the
automatic-mode branch. -/

inductive GenerateClickOutcome where
  | inputError        -- "请至少填写对话背景和对话目标"
  | genFailed         -- "对话生成失败，请重试或调整输入参数"
  | draftedSaveFailed -- draft kept in session but `(None, None)` came back from create
  | drafted           -- saved; no automatic styling (human-in-the-loop, or personas ignored)
  | autoStyled        -- automatic mode: Style Agent invoked and its output saved
  | autoWarning       -- automatic mode: persona field(s) empty, configuration warning
deriving Repr, DecidableEq

structure ClickResult where
  fs : FS
  outcome : GenerateClickOutcome
  saved_path : Option (String × String)
  final_saved_path : Option (String × String)
deriving Repr, DecidableEq

def generate_click (gw : String → Except String String) (env1 env2 : Env)
    (faults : List String) (fs : FS)
    (work_mode context dialogue_mode goal language difficulty : String)
    (num_turns : Nat) (user_traits ai_traits : String) : ClickResult :=
  if context = "" ∨ goal = "" then ⟨fs, .inputError, none, none⟩
  else
    let dialogue_data := generate_dialogue gw context dialogue_mode goal language difficulty num_turns
    if pyTruthy dialogue_data ∧ (jlookup dialogue_data "original_text").isSome then
      match save_dialogue_data faults env1 fs dialogue_data context goal with
      | (fs1, some saved_paths) =>
        if work_mode = "自动模式" ∧ user_traits ≠ "" ∧ ai_traits ≠ "" then
          let adapted := adapt_dialogue gw dialogue_data user_traits ai_traits (some language)
          let fres := save_final_dialogue faults env2 fs1 adapted dialogue_data user_traits ai_traits
          ⟨fres.1, .autoStyled, some saved_paths, fres.2⟩
        else if work_mode = "自动模式" ∧ (user_traits = "" ∨ ai_traits = "") then
          ⟨fs1, .autoWarning, some saved_paths, none⟩
        else ⟨fs1, .drafted, some saved_paths, none⟩
      | (fs1, none) => ⟨fs1, .draftedSaveFailed, none, none⟩
    else ⟨fs, .genFailed, none, none⟩


/-! ### General lemmas -/

theorem parseVal_nil (fuel : Nat) : parseVal fuel [] = none := by
  cases fuel <;> simp [parseVal]

theorem parseObjTail_isObj (fuel : Nat) :
    ∀ (l : List Char) (acc : List (String × JSON)) (v : JSON) (r : List Char),
      parseObjTail fuel l acc = some (v, r) → ∃ flds, v = .obj flds := by
  induction fuel with
  | zero => intro l acc v r h; simp [parseObjTail] at h
  | succ f ih =>
    intro l acc v r h
    unfold parseObjTail at h
    repeat' split at h
    all_goals first
      | exact Option.noConfusion h
      | (simp only [Option.some.injEq, Prod.mk.injEq] at h; exact ⟨_, h.1.symm⟩)
      | exact ih _ _ _ _ h

theorem parseVal_brace_isObj (fuel : Nat) (rest : List Char) (v : JSON) (r : List Char)
    (h : parseVal fuel ('{' :: rest) = some (v, r)) : ∃ flds, v = .obj flds := by
  cases fuel with
  | zero => simp [parseVal] at h
  | succ f =>
    unfold parseVal at h
    simp only [if_pos rfl] at h
    exact parseObjTail_isObj f _ _ _ _ h



theorem json_loads_empty : json_loads "" = none := by rfl

theorem skipWs_brace (t : List Char) : skipWs ('{' :: t) = '{' :: t := by
  simp [skipWs, isWsChar]

theorem json_loads_brace_isObj (s : String) (t : List Char) (hs : s.data = '{' :: t)
    (v : JSON) (h : json_loads s = some v) : ∃ flds, v = .obj flds := by
  unfold json_loads at h
  rw [hs, skipWs_brace] at h
  split at h
  next p hp =>
    split at h
    · cases h
      exact parseVal_brace_isObj _ _ _ _ hp
    · exact Option.noConfusion h
  next => exact Option.noConfusion h

theorem drop_findIdx_cons (c : Char) : ∀ (l : List Char), c ∈ l →
    ∃ t, l.drop (l.findIdx (· = c)) = c :: t := by
  intro l hl
  induction l with
  | nil => cases hl
  | cons a l ih =>
    by_cases hac : a = c
    · subst hac
      exact ⟨l, by simp [List.findIdx_cons]⟩
    · have hcl : c ∈ l := by
        cases hl with
        | head => exact absurd rfl hac
        | tail _ h => exact h
      obtain ⟨t, ht⟩ := ih hcl
      refine ⟨t, ?_⟩
      simpa [List.findIdx_cons, hac] using ht



theorem extracted_isObj_of_loads (r : String) (hc : r.data.contains '{' = true)
    (d : JSON) (hj : json_loads (extracted_json_str r) = some d) :
    ∃ flds, d = .obj flds := by
  have hmem : '{' ∈ r.data := by
    simpa using hc
  obtain ⟨t0, ht0⟩ := drop_findIdx_cons '{' r.data hmem
  simp only [extracted_json_str, pyFind] at hj
  rw [ht0] at hj
  rcases hk : (pyRfind r '}' + 1 - r.data.findIdx (· = '{')) with _ | m
  · rw [hk] at hj
    simp only [List.take_zero] at hj
    exact absurd hj (by rw [show String.mk [] = "" from rfl, json_loads_empty]; simp)
  · rw [hk] at hj
    simp only [List.take_succ_cons] at hj
    exact json_loads_brace_isObj _ _ rfl _ hj

theorem generate_dialogue_isObj (gw : String → Except String String)
    (context dialogue_mode goal language difficulty : String) (num_turns : Nat) :
    ∃ flds, generate_dialogue gw context dialogue_mode goal language difficulty num_turns
      = .obj flds := by
  unfold generate_dialogue
  cases hgw : gw (build_generation_prompt context dialogue_mode goal language difficulty num_turns) with
  | error e =>
    refine ⟨[("original_text", .null), ("key_points", .arr []), ("intentions", .arr [])], ?_⟩
    simp [call_llm_api, hgw, fallback_dialogue]
  | ok r =>
    simp only [call_llm_api, hgw]
    by_cases hcond : ((r != "") && r.data.contains '{' && r.data.contains '}') = true
    · rw [if_pos hcond]
      rcases hj : json_loads (extracted_json_str r) with _ | d
      · exact ⟨[("original_text", .str r), ("key_points", .arr []), ("intentions", .arr [])], rfl⟩
      · show ∃ flds, d = JSON.obj flds
        have hc : r.data.contains '{' = true := by
          have h2 := hcond
          simp only [Bool.and_eq_true] at h2
          exact h2.1.2
        exact extracted_isObj_of_loads r hc d hj
    · rw [if_neg hcond]
      exact ⟨[("original_text", .str r), ("key_points", .arr []), ("intentions", .arr [])], rfl⟩


theorem dropWhile_ne_eq_drop_findIdx (c : Char) : ∀ l : List Char,
    l.dropWhile (· ≠ c) = l.drop (l.findIdx (· = c)) := by
  intro l
  induction l with
  | nil => rfl
  | cons a l ih =>
    simp only [List.dropWhile_cons, List.findIdx_cons]
    by_cases hac : a = c
    · simp [hac]
    · simp [hac, decide_not]
      simpa [decide_not] using ih

theorem findIdx_take_mem (p : Char → Bool) : ∀ (l : List Char) (n : Nat),
    (∃ x ∈ l.take n, p x) →
    l.findIdx p = (l.take n).findIdx p ∧ l.findIdx p < n := by
  intro l
  induction l with
  | nil => intro n h; simp at h
  | cons a l ih =>
    intro n h
    match n with
    | 0 => simp at h
    | m + 1 =>
      rw [List.take_succ_cons] at h ⊢
      cases hpb : p a with
      | false =>
        have h' : ∃ x ∈ l.take m, p x := by
          rcases h with ⟨x, hx, hpx⟩
          rcases List.mem_cons.mp hx with hh | hx'
          · rw [hh, hpb] at hpx
            exact absurd hpx (by simp)
          · exact ⟨x, hx', hpx⟩
        obtain ⟨heq, hlt⟩ := ih m h'
        rw [List.findIdx_cons, List.findIdx_cons, hpb]
        simp only [cond_false]
        exact ⟨by rw [heq], by omega⟩
      | true =>
        rw [List.findIdx_cons, List.findIdx_cons, hpb]
        refine ⟨by simp, by simp⟩

theorem findIdx_append_right (p : Char → Bool) : ∀ (l1 l2 : List Char),
    (∀ x ∈ l1, p x = false) →
    (l1 ++ l2).findIdx p = l1.length + l2.findIdx p := by
  intro l1
  induction l1 with
  | nil => intro l2 h; simp
  | cons a l1 ih =>
    intro l2 h
    have ha : p a = false := h a (List.mem_cons_self a l1)
    have ht : ∀ x ∈ l1, p x = false := fun x hx => h x (List.mem_cons_of_mem a hx)
    rw [List.cons_append, List.findIdx_cons, ha]
    simp only [cond_false, ih l2 ht, List.length_cons]
    omega

theorem extracted_eq_span (r : String) (h1 : '{' ∈ r.data) (h2 : '}' ∈ r.data) :
    extracted_json_str r = spanFirstToLastBrace r := by
  unfold extracted_json_str spanFirstToLastBrace pyFind pyRfind
  apply congrArg String.mk
  rw [dropWhile_ne_eq_drop_findIdx, dropWhile_ne_eq_drop_findIdx]
  rw [List.drop_reverse, List.reverse_reverse]
  have hi : r.data.findIdx (· = '{') < r.data.length :=
    List.findIdx_lt_length.mpr ⟨'{', h1, by exact rfl⟩
  have hj' : r.data.reverse.findIdx (· = '}') < r.data.length := by
    have hh : r.data.reverse.findIdx (· = '}') < r.data.reverse.length :=
      List.findIdx_lt_length.mpr ⟨'}', List.mem_reverse.mpr h2, by exact rfl⟩
    rwa [List.length_reverse] at hh
  have hml : (r.data.drop (r.data.findIdx (· = '{'))).length
      = r.data.length - r.data.findIdx (· = '{') := List.length_drop _ _
  have hrev : (r.data.drop (r.data.findIdx (· = '{'))).reverse
      = r.data.reverse.take (r.data.length - r.data.findIdx (· = '{')) := by
    rw [List.reverse_drop]
  rw [hml, hrev]
  by_cases hb : '}' ∈ r.data.drop (r.data.findIdx (· = '{'))
  · have hmem : ∃ x ∈ r.data.reverse.take (r.data.length - r.data.findIdx (· = '{')),
        (decide (x = '}')) = true := by
      refine ⟨'}', ?_, by exact rfl⟩
      rw [← hrev]
      exact List.mem_reverse.mpr hb
    obtain ⟨heq, hlt⟩ := findIdx_take_mem (· = '}') r.data.reverse
      (r.data.length - r.data.findIdx (· = '{')) hmem
    rw [← heq]
    congr 1
    omega
  · have hnomem : ∀ x ∈ (r.data.drop (r.data.findIdx (· = '{'))).reverse,
        (decide (x = '}')) = true → False := by
      intro x hx hpx
      have hxm : x ∈ r.data.drop (r.data.findIdx (· = '{')) := List.mem_reverse.mp hx
      have : x = '}' := of_decide_eq_true hpx
      exact hb (this ▸ hxm)
    have hk : (r.data.reverse.take (r.data.length - r.data.findIdx (· = '{'))).findIdx (· = '}')
        = r.data.length - r.data.findIdx (· = '{') := by
      rw [← hrev]
      rw [List.findIdx_eq_length_of_false (fun x hx => by
        cases hdx : decide (x = '}') with
        | false => rfl
        | true => exact absurd (hnomem x hx hdx) not_false)]
      rw [List.length_reverse, hml]
    rw [hk]
    have hsplit : '}' ∈ r.data.take (r.data.findIdx (· = '{')) := by
      have htd := List.take_append_drop (r.data.findIdx (· = '{')) r.data
      rcases List.mem_append.mp (htd ▸ h2) with h | h
      · exact h
      · exact absurd h hb
    have hja : r.data.reverse.findIdx (· = '}')
        = (r.data.drop (r.data.findIdx (· = '{'))).length
          + (r.data.take (r.data.findIdx (· = '{'))).reverse.findIdx (· = '}') := by
      have hdecomp : r.data.reverse
          = (r.data.drop (r.data.findIdx (· = '{'))).reverse
            ++ (r.data.take (r.data.findIdx (· = '{'))).reverse := by
        conv =>
          lhs
          rw [← List.take_append_drop (r.data.findIdx (· = '{')) r.data]
        rw [List.reverse_append]
      rw [hdecomp, findIdx_append_right]
      · rw [List.length_reverse]
      · intro x hx
        cases hdx : decide (x = '}') with
        | false => rfl
        | true => exact absurd (hnomem x hx hdx) not_false
    have hk2 : (r.data.take (r.data.findIdx (· = '{'))).reverse.findIdx (· = '}')
        < r.data.findIdx (· = '{') := by
      have hlt2 : (r.data.take (r.data.findIdx (· = '{'))).reverse.findIdx (· = '}')
          < (r.data.take (r.data.findIdx (· = '{'))).reverse.length :=
        List.findIdx_lt_length.mpr ⟨'}', List.mem_reverse.mpr hsplit, by exact rfl⟩
      rw [List.length_reverse, List.length_take] at hlt2
      omega
    rw [hml] at hja
    congr 1
    omega

/-- C1 (amended): for valid parameters `generate_dialogue` never raises — it
returns a Draft object for every gateway outcome — but when the Completion
Gateway fails with its `None` signal the Draft's `original_text` field is
`null` (Python `None`), not a non-empty string. -/
theorem C1_generate_never_throws (gw : String → Except String String)
    (context dialogue_mode goal language difficulty : String) (num_turns : Nat) (e : String)
    (hc : context ≠ "") (hg : goal ≠ "")
    (he : gw (build_generation_prompt context dialogue_mode goal language difficulty num_turns)
      = .error e) :
    (∃ flds, generate_dialogue gw context dialogue_mode goal language difficulty num_turns
      = JSON.obj flds)
    ∧ jlookup (generate_dialogue gw context dialogue_mode goal language difficulty num_turns)
        "original_text" = some JSON.null := by
  refine ⟨generate_dialogue_isObj gw context dialogue_mode goal language difficulty num_turns, ?_⟩
  unfold generate_dialogue
  simp only [call_llm_api, he]
  rfl

theorem C1_witness :
    (∃ flds, generate_dialogue (fun _ => .error "API 调用错误") "咖啡馆邂逅" "AI先说"
        "获取联系方式" "英文" "B1" 5 = JSON.obj flds)
    ∧ jlookup (generate_dialogue (fun _ => .error "API 调用错误") "咖啡馆邂逅" "AI先说"
        "获取联系方式" "英文" "B1" 5) "original_text" = some JSON.null :=
  C1_generate_never_throws (fun _ => .error "API 调用错误") "咖啡馆邂逅" "AI先说"
    "获取联系方式" "英文" "B1" 5 "API 调用错误" (by decide) (by decide) rfl

/-- C1 counterexample: when the gateway fails, the returned Draft's
`original_text` is not a non-empty string (it is `null`). -/
theorem C1_counterexample :
    ¬ ∃ s : String, s ≠ "" ∧
      jlookup (generate_dialogue (fun _ => .error "API down") "cafe meeting" "AI先说"
        "exchange contacts" "英文" "B1" 5) "original_text" = some (JSON.str s) := by
  rintro ⟨s, hs, h⟩
  have h0 : jlookup (generate_dialogue (fun _ => .error "API down") "cafe meeting" "AI先说"
      "exchange contacts" "英文" "B1" 5) "original_text" = some JSON.null := rfl
  rw [h0] at h
  exact JSON.noConfusion (Option.some.inj h)

/-- C2 (amended): the Draft Agent extracts the span from the *first opening
brace* to the *last closing brace* (not the first balanced span) and
attempts to parse exactly that; only when parsing that span fails, or when
the response lacks an opening or closing brace, does it fall back to the
degraded Draft whose text is the entire raw response. -/
theorem C2_extraction_amended (gw : String → Except String String)
    (context dialogue_mode goal language difficulty : String) (num_turns : Nat) (r : String)
    (hgw : gw (build_generation_prompt context dialogue_mode goal language difficulty num_turns)
      = .ok r) :
    ('{' ∈ r.data → '}' ∈ r.data →
      extracted_json_str r = spanFirstToLastBrace r
      ∧ generate_dialogue gw context dialogue_mode goal language difficulty num_turns
          = (match json_loads (spanFirstToLastBrace r) with
             | some d => d
             | none => fallback_dialogue (some r)))
    ∧ (('{' ∉ r.data ∨ '}' ∉ r.data) →
      generate_dialogue gw context dialogue_mode goal language difficulty num_turns
        = fallback_dialogue (some r)) := by
  constructor
  · intro h1 h2
    have hspan := extracted_eq_span r h1 h2
    refine ⟨hspan, ?_⟩
    have hne : r ≠ "" := by
      intro he
      subst he
      exact absurd h1 (by simp)
    unfold generate_dialogue
    simp only [call_llm_api, hgw]
    rw [if_pos (by simp [hne, h1, h2]), hspan]
  · intro h
    have hneg : ¬ (((r != "") && r.data.contains '{' && r.data.contains '}') = true) := by
      rcases h with h | h <;> simp [h]
    unfold generate_dialogue
    simp only [call_llm_api, hgw]
    rw [if_neg hneg]

theorem C2_witness :
    extracted_json_str "\x7b\"original_text\": \"hi\", \"key_points\": [], \"intentions\": []\x7d"
      = spanFirstToLastBrace "\x7b\"original_text\": \"hi\", \"key_points\": [], \"intentions\": []\x7d"
    ∧ generate_dialogue
        (fun _ => .ok "\x7b\"original_text\": \"hi\", \"key_points\": [], \"intentions\": []\x7d")
        "c" "AI先说" "g" "英文" "B1" 5
      = (match json_loads (spanFirstToLastBrace
            "\x7b\"original_text\": \"hi\", \"key_points\": [], \"intentions\": []\x7d") with
         | some d => d
         | none => fallback_dialogue
            (some "\x7b\"original_text\": \"hi\", \"key_points\": [], \"intentions\": []\x7d")) :=
  (C2_extraction_amended
    (fun _ => .ok "\x7b\"original_text\": \"hi\", \"key_points\": [], \"intentions\": []\x7d")
    "c" "AI先说" "g" "英文" "B1" 5
    "\x7b\"original_text\": \"hi\", \"key_points\": [], \"intentions\": []\x7d" rfl).1
    (by decide) (by decide)

/-- C2 counterexample: on the response `\x7b"a": 1\x7d \x7b"b": 2\x7d` the
first balanced span exists and parses, yet the code returns the degraded
fallback Draft (its first-to-last-brace span is not valid JSON), so the
agent does not "parse exactly the first balanced span". -/
theorem C2_counterexample :
    firstBalancedSpan "\x7b\"a\": 1\x7d \x7b\"b\": 2\x7d" = some "\x7b\"a\": 1\x7d"
    ∧ json_loads "\x7b\"a\": 1\x7d" = some (JSON.obj [("a", JSON.num 1)])
    ∧ generate_dialogue (fun _ => .ok "\x7b\"a\": 1\x7d \x7b\"b\": 2\x7d") "c" "AI先说"
        "g" "英文" "B1" 5
      = fallback_dialogue (some "\x7b\"a\": 1\x7d \x7b\"b\": 2\x7d")
    ∧ fallback_dialogue (some "\x7b\"a\": 1\x7d \x7b\"b\": 2\x7d")
        ≠ JSON.obj [("a", JSON.num 1)] := by
  exact ⟨rfl, rfl, rfl, by decide⟩

/-- C8: with no explicit language hint, the Style Agent selects the
Chinese-language prompt template when the draft text contains a CJK
ideograph of the basic block U+4E00–U+9FFF (the block the code's regex
matches; 你 = U+4F60 lies in it), and the default English template when the
draft text is pure ASCII. -/
theorem C8_language_heuristic (dialogue_data : JSON) (user_traits ai_traits : String)
    (kps ints : List JSON)
    (hk : jgetListD dialogue_data "key_points" = some kps)
    (hi : jgetListD dialogue_data "intentions" = some ints) :
    ((∃ c ∈ (pyStr (jget dialogue_data "original_text" (.str ""))).data,
        0x4e00 ≤ c.toNat ∧ c.toNat ≤ 0x9fff) →
      build_adaptation_prompt dialogue_data user_traits ai_traits none
        = some (chinese_adaptation_template
            (pyStr (jget dialogue_data "original_text" (.str "")))
            (bullet_lines kps) (bullet_lines ints) user_traits ai_traits))
    ∧ ((∀ c ∈ (pyStr (jget dialogue_data "original_text" (.str ""))).data, c.toNat < 128) →
      build_adaptation_prompt dialogue_data user_traits ai_traits none
        = some (english_adaptation_template
            (pyStr (jget dialogue_data "original_text" (.str "")))
            (bullet_lines kps) (bullet_lines ints) user_traits ai_traits)) := by
  constructor
  · intro hcjk
    have hz : has_chinese (pyStr (jget dialogue_data "original_text" (.str ""))) = true := by
      simp only [has_chinese, List.any_eq_true]
      obtain ⟨c, hc, hlo, hhi⟩ := hcjk
      exact ⟨c, hc, by simp [hlo, hhi]⟩
    simp [build_adaptation_prompt, hk, hi, resolve_language, hz]
  · intro hascii
    have hz : has_chinese (pyStr (jget dialogue_data "original_text" (.str ""))) = false := by
      cases hzb : has_chinese (pyStr (jget dialogue_data "original_text" (.str ""))) with
      | false => rfl
      | true =>
        exfalso
        simp only [has_chinese, List.any_eq_true] at hzb
        obtain ⟨c, hc, hb⟩ := hzb
        simp only [Bool.and_eq_true, decide_eq_true_eq] at hb
        have := hascii c hc
        omega
    simp [build_adaptation_prompt, hk, hi, resolve_language, hz]

theorem C8_witness :
    build_adaptation_prompt
        (JSON.obj [("original_text", JSON.str "你好，最近在读什么书？"),
                   ("key_points", JSON.arr []), ("intentions", JSON.arr [])])
        "内向工程师" "开朗作家" none
      = some (chinese_adaptation_template "你好，最近在读什么书？" "" "" "内向工程师" "开朗作家")
    ∧ build_adaptation_prompt
        (JSON.obj [("original_text", JSON.str "Hi, what are you reading lately?"),
                   ("key_points", JSON.arr []), ("intentions", JSON.arr [])])
        "shy engineer" "outgoing writer" none
      = some (english_adaptation_template "Hi, what are you reading lately?" "" ""
          "shy engineer" "outgoing writer") :=
  ⟨(C8_language_heuristic
      (JSON.obj [("original_text", JSON.str "你好，最近在读什么书？"),
                 ("key_points", JSON.arr []), ("intentions", JSON.arr [])])
      "内向工程师" "开朗作家" [] [] rfl rfl).1 (by decide),
   (C8_language_heuristic
      (JSON.obj [("original_text", JSON.str "Hi, what are you reading lately?"),
                 ("key_points", JSON.arr []), ("intentions", JSON.arr [])])
      "shy engineer" "outgoing writer" [] [] rfl rfl).2 (by decide)⟩

/-! ### Store lemmas -/

theorem jlookup_setField_self (flds : List (String × JSON)) (k : String) (v : JSON) :
    jlookup (.obj (setField flds k v)) k = some v := by
  induction flds with
  | nil => simp [setField, jlookup, List.find?]
  | cons kv rest ih =>
    obtain ⟨k1, v1⟩ := kv
    by_cases h : k1 = k
    · simp [setField, h, jlookup, List.find?]
    · simp only [setField, h, if_false]
      simpa [jlookup, List.find?, h] using ih

theorem jlookup_setField_other (flds : List (String × JSON)) (k k2 : String) (v : JSON)
    (h : k2 ≠ k) :
    jlookup (.obj (setField flds k v)) k2 = jlookup (.obj flds) k2 := by
  induction flds with
  | nil => simp [setField, jlookup, List.find?, Ne.symm h]
  | cons kv rest ih =>
    obtain ⟨k1, v1⟩ := kv
    by_cases h1 : k1 = k
    · subst h1
      simp [setField, jlookup, List.find?, Ne.symm h]
    · by_cases h2 : k1 = k2
      · simp [setField, h1, jlookup, List.find?, h2, h]
      · simp only [setField, h1, if_false]
        simpa [jlookup, List.find?, h2] using ih

theorem fsRead_fsWrite_self (fs : FS) (p : String) (d : FileData) :
    fsRead (fsWrite fs p d) p = some d := by
  induction fs with
  | nil => simp [fsWrite, fsRead, List.find?]
  | cons e rest ih =>
    obtain ⟨p1, d1⟩ := e
    by_cases h : p1 = p
    · simp [fsWrite, h, fsRead, List.find?]
    · simp only [fsWrite, h, if_false]
      simpa [fsRead, List.find?, h] using ih

theorem fsRead_fsWrite_other (fs : FS) (p p2 : String) (d : FileData) (h : p2 ≠ p) :
    fsRead (fsWrite fs p d) p2 = fsRead fs p2 := by
  induction fs with
  | nil => simp [fsWrite, fsRead, List.find?, Ne.symm h]
  | cons e rest ih =>
    obtain ⟨p1, d1⟩ := e
    by_cases h1 : p1 = p
    · subst h1
      simp [fsWrite, fsRead, List.find?, Ne.symm h]
    · by_cases h2 : p1 = p2
      · simp [fsWrite, h1, fsRead, List.find?, h2, h]
      · simp only [fsWrite, h1, if_false]
        simpa [fsRead, List.find?, h2] using ih

theorem json_md_suffix_ne (s : String) : s ++ ".json" ≠ s ++ ".md" := by
  intro h
  have h2 := congrArg String.length h
  rw [String.length_append, String.length_append,
    show (".json" : String).length = 5 from rfl,
    show (".md" : String).length = 3 from rfl] at h2
  omega

/-- `d1` and `d2` agree on every key other than `k`. -/
def agrees_except (d1 d2 : JSON) (k : String) : Prop :=
  ∀ k2, k2 ≠ k → jlookup d1 k2 = jlookup d2 k2

theorem save_dialogue_data_spec (env : Env) (fs : FS) (flds : List (String × JSON))
    (context goal md : String)
    (hmd : md_draft_content context env.timestamp goal (.obj flds) = some md) :
    save_dialogue_data [] env fs (.obj flds) context goal
      = (fsWrite
          (fsWrite fs
            ("dialogue_data/" ++ (env.timestamp ++ "_" ++ safe_context_frag context ++ "_" ++ env.uuid8) ++ ".json")
            (.jsonF (.obj (setField flds "metadata" (fresh_metadata env context goal)))))
          ("dialogue_data/" ++ (env.timestamp ++ "_" ++ safe_context_frag context ++ "_" ++ env.uuid8) ++ ".md")
          (.textF md),
        some ("dialogue_data/" ++ (env.timestamp ++ "_" ++ safe_context_frag context ++ "_" ++ env.uuid8) ++ ".json",
          "dialogue_data/" ++ (env.timestamp ++ "_" ++ safe_context_frag context ++ "_" ++ env.uuid8) ++ ".md")) := by
  unfold save_dialogue_data
  simp [objSet, tryWrite, hmd]

/-- C9: `create(record)` followed by reading the structured path back yields
the record with only `metadata` overwritten (fresh creation timestamp, the
caller's context and goal); every other field is unchanged. -/
theorem C9_create_round_trip (env : Env) (fs : FS) (flds : List (String × JSON))
    (context goal jp mp md : String)
    (hjp : jp = "dialogue_data/" ++ (env.timestamp ++ "_" ++ safe_context_frag context ++ "_" ++ env.uuid8) ++ ".json")
    (hmp : mp = "dialogue_data/" ++ (env.timestamp ++ "_" ++ safe_context_frag context ++ "_" ++ env.uuid8) ++ ".md")
    (hmd : md_draft_content context env.timestamp goal (.obj flds) = some md) :
    (save_dialogue_data [] env fs (.obj flds) context goal).2 = some (jp, mp)
    ∧ fsRead (save_dialogue_data [] env fs (.obj flds) context goal).1 jp
        = some (.jsonF (.obj (setField flds "metadata" (fresh_metadata env context goal))))
    ∧ jlookup (.obj (setField flds "metadata" (fresh_metadata env context goal))) "metadata"
        = some (fresh_metadata env context goal)
    ∧ agrees_except (.obj (setField flds "metadata" (fresh_metadata env context goal)))
        (.obj flds) "metadata" := by
  subst hjp hmp
  rw [save_dialogue_data_spec env fs flds context goal md hmd]
  refine ⟨rfl, ?_, jlookup_setField_self flds "metadata" (fresh_metadata env context goal),
    fun k2 hk2 => jlookup_setField_other flds "metadata" k2 (fresh_metadata env context goal) hk2⟩
  rw [fsRead_fsWrite_other _ _ _ _ (json_md_suffix_ne _), fsRead_fsWrite_self]

theorem C9_witness :
    (save_dialogue_data [] ⟨"20250101_120000", "abcd1234"⟩ []
      (.obj [("original_text", JSON.str "hi"), ("key_points", JSON.arr []),
             ("intentions", JSON.arr [])]) "cafe" "goal").2
        = some ("dialogue_data/20250101_120000_cafe_abcd1234.json",
                "dialogue_data/20250101_120000_cafe_abcd1234.md")
    ∧ fsRead (save_dialogue_data [] ⟨"20250101_120000", "abcd1234"⟩ []
        (.obj [("original_text", JSON.str "hi"), ("key_points", JSON.arr []),
               ("intentions", JSON.arr [])]) "cafe" "goal").1
        "dialogue_data/20250101_120000_cafe_abcd1234.json"
        = some (.jsonF (.obj (setField
            [("original_text", JSON.str "hi"), ("key_points", JSON.arr []),
             ("intentions", JSON.arr [])] "metadata"
            (fresh_metadata ⟨"20250101_120000", "abcd1234"⟩ "cafe" "goal"))))
    ∧ jlookup (.obj (setField
          [("original_text", JSON.str "hi"), ("key_points", JSON.arr []),
           ("intentions", JSON.arr [])] "metadata"
          (fresh_metadata ⟨"20250101_120000", "abcd1234"⟩ "cafe" "goal"))) "metadata"
        = some (fresh_metadata ⟨"20250101_120000", "abcd1234"⟩ "cafe" "goal")
    ∧ agrees_except (.obj (setField
          [("original_text", JSON.str "hi"), ("key_points", JSON.arr []),
           ("intentions", JSON.arr [])] "metadata"
          (fresh_metadata ⟨"20250101_120000", "abcd1234"⟩ "cafe" "goal")))
        (.obj [("original_text", JSON.str "hi"), ("key_points", JSON.arr []),
               ("intentions", JSON.arr [])]) "metadata" :=
  C9_create_round_trip ⟨"20250101_120000", "abcd1234"⟩ []
    [("original_text", JSON.str "hi"), ("key_points", JSON.arr []), ("intentions", JSON.arr [])]
    "cafe" "goal" "dialogue_data/20250101_120000_cafe_abcd1234.json"
    "dialogue_data/20250101_120000_cafe_abcd1234.md"
    ((md_draft_content "cafe" "20250101_120000" "goal"
      (.obj [("original_text", JSON.str "hi"), ("key_points", JSON.arr []),
             ("intentions", JSON.arr [])])).getD "")
    (by decide) (by decide) rfl

/-- C10 (implicit): any `metadata` already present in the record is discarded
by `create` and replaced with freshly generated metadata (current timestamp,
the caller's context and goal); an `update` whose path is falsy or missing
falls back to `create` and hence also regenerates the identity metadata. -/
theorem C10_caller_metadata_discarded (env : Env) (fs : FS) (flds : List (String × JSON))
    (m : JSON) (context goal jp2 md : String)
    (hm : jlookup (.obj flds) "metadata" = some m)
    (hmd : md_draft_content context env.timestamp goal (.obj flds) = some md)
    (hnx : fsRead fs jp2 = none) :
    jlookup (.obj (setField flds "metadata" (fresh_metadata env context goal))) "metadata"
      = some (fresh_metadata env context goal)
    ∧ fsRead (save_dialogue_data [] env fs (.obj flds) context goal).1
        ("dialogue_data/" ++ (env.timestamp ++ "_" ++ safe_context_frag context ++ "_" ++ env.uuid8) ++ ".json")
      = some (.jsonF (.obj (setField flds "metadata" (fresh_metadata env context goal))))
    ∧ update_dialogue_files [] env fs none (.obj flds) context goal
      = save_dialogue_data [] env fs (.obj flds) context goal
    ∧ update_dialogue_files [] env fs (some jp2) (.obj flds) context goal
      = save_dialogue_data [] env fs (.obj flds) context goal := by
  refine ⟨jlookup_setField_self flds "metadata" (fresh_metadata env context goal), ?_, rfl, ?_⟩
  · rw [save_dialogue_data_spec env fs flds context goal md hmd]
    rw [fsRead_fsWrite_other _ _ _ _ (json_md_suffix_ne _), fsRead_fsWrite_self]
  · unfold update_dialogue_files
    simp [hnx]

theorem C10_witness :
    jlookup (.obj (setField
        [("original_text", JSON.str "hi"),
         ("metadata", JSON.obj [("timestamp", JSON.str "OLD")])]
        "metadata" (fresh_metadata ⟨"20250101_120000", "abcd1234"⟩ "cafe" "goal"))) "metadata"
      = some (fresh_metadata ⟨"20250101_120000", "abcd1234"⟩ "cafe" "goal")
    ∧ fsRead (save_dialogue_data [] ⟨"20250101_120000", "abcd1234"⟩ []
        (.obj [("original_text", JSON.str "hi"),
               ("metadata", JSON.obj [("timestamp", JSON.str "OLD")])]) "cafe" "goal").1
        ("dialogue_data/" ++ ((⟨"20250101_120000", "abcd1234"⟩ : Env).timestamp ++ "_"
          ++ safe_context_frag "cafe" ++ "_" ++ (⟨"20250101_120000", "abcd1234"⟩ : Env).uuid8) ++ ".json")
      = some (.jsonF (.obj (setField
          [("original_text", JSON.str "hi"),
           ("metadata", JSON.obj [("timestamp", JSON.str "OLD")])]
          "metadata" (fresh_metadata ⟨"20250101_120000", "abcd1234"⟩ "cafe" "goal"))))
    ∧ update_dialogue_files [] ⟨"20250101_120000", "abcd1234"⟩ [] none
        (.obj [("original_text", JSON.str "hi"),
               ("metadata", JSON.obj [("timestamp", JSON.str "OLD")])]) "cafe" "goal"
      = save_dialogue_data [] ⟨"20250101_120000", "abcd1234"⟩ []
        (.obj [("original_text", JSON.str "hi"),
               ("metadata", JSON.obj [("timestamp", JSON.str "OLD")])]) "cafe" "goal"
    ∧ update_dialogue_files [] ⟨"20250101_120000", "abcd1234"⟩ [] (some "dialogue_data/missing.json")
        (.obj [("original_text", JSON.str "hi"),
               ("metadata", JSON.obj [("timestamp", JSON.str "OLD")])]) "cafe" "goal"
      = save_dialogue_data [] ⟨"20250101_120000", "abcd1234"⟩ []
        (.obj [("original_text", JSON.str "hi"),
               ("metadata", JSON.obj [("timestamp", JSON.str "OLD")])]) "cafe" "goal" :=
  C10_caller_metadata_discarded ⟨"20250101_120000", "abcd1234"⟩ []
    [("original_text", JSON.str "hi"), ("metadata", JSON.obj [("timestamp", JSON.str "OLD")])]
    (JSON.obj [("timestamp", JSON.str "OLD")]) "cafe" "goal" "dialogue_data/missing.json"
    ((md_draft_content "cafe" "20250101_120000" "goal"
      (.obj [("original_text", JSON.str "hi"),
             ("metadata", JSON.obj [("timestamp", JSON.str "OLD")])])).getD "")
    rfl rfl rfl

/-- C5 (amended): any exception inside `create`/`update` is caught and
surfaced as the `(None, None)` sentinel rather than propagated, and a
successful pair means both files were written; but `(None, None)` does not
imply nothing was persisted: in both `save_dialogue_data` and
`update_dialogue_files` the structured (JSON) write precedes the rendered
(markdown) write, so when only the markdown write fails the sentinel comes
back with the structured file already created (create) or already rewritten
(update) by that very call. -/
theorem C5_sentinel_amended (env : Env) (fs fs2 : FS)
    (flds uflds ofields : List (String × JSON)) (M : JSON)
    (context goal context2 goal2 jp mp jp2 md umd : String)
    (hjp : jp = "dialogue_data/" ++ (env.timestamp ++ "_" ++ safe_context_frag context ++ "_" ++ env.uuid8) ++ ".json")
    (hmp : mp = "dialogue_data/" ++ (env.timestamp ++ "_" ++ safe_context_frag context ++ "_" ++ env.uuid8) ++ ".md")
    (hmd : md_draft_content context env.timestamp goal (.obj flds) = some md)
    (hjp2 : jp2 ≠ "")
    (hex2 : fsRead fs2 jp2 = some (.jsonF (.obj ofields)))
    (hM : jlookup (.obj ofields) "metadata" = some M)
    (humd : md_update_content M context2 goal2 (.obj uflds) = some umd)
    (hmdne : splitext_base jp2 ++ ".md" ≠ jp2) :
    ((save_dialogue_data [mp] env fs (.obj flds) context goal).2 = none
      ∧ fsRead (save_dialogue_data [mp] env fs (.obj flds) context goal).1 jp
          = some (.jsonF (.obj (setField flds "metadata" (fresh_metadata env context goal)))))
    ∧ save_dialogue_data [jp] env fs (.obj flds) context goal = (fs, none)
    ∧ (save_dialogue_data [] env fs (.obj flds) context goal).2 = some (jp, mp)
    ∧ ((update_dialogue_files [splitext_base jp2 ++ ".md"] env fs2 (some jp2)
          (.obj uflds) context2 goal2).2 = none
      ∧ fsRead (update_dialogue_files [splitext_base jp2 ++ ".md"] env fs2 (some jp2)
          (.obj uflds) context2 goal2).1 jp2
          = some (.jsonF (.obj (setField uflds "metadata" M))))
    ∧ update_dialogue_files [jp2] env fs2 (some jp2) (.obj uflds) context2 goal2 = (fs2, none)
    ∧ (update_dialogue_files [] env fs2 (some jp2) (.obj uflds) context2 goal2).2
        = some (jp2, splitext_base jp2 ++ ".md") := by
  subst hjp hmp
  have hne := json_md_suffix_ne
    ("dialogue_data/" ++ (env.timestamp ++ "_" ++ safe_context_frag context ++ "_" ++ env.uuid8))
  have hne2 := Ne.symm hmdne
  refine ⟨⟨?_, ?_⟩, ?_, ?_, ⟨?_, ?_⟩, ?_, ?_⟩
  · unfold save_dialogue_data
    simp [objSet, tryWrite, hne, hmd]
  · unfold save_dialogue_data
    simp [objSet, tryWrite, hne, hmd, fsRead_fsWrite_self]
  · unfold save_dialogue_data
    simp [objSet, tryWrite]
  · rw [save_dialogue_data_spec env fs flds context goal md hmd]
  · unfold update_dialogue_files
    simp [hjp2, hex2, hM, objSet, tryWrite, humd, hne2]
  · unfold update_dialogue_files
    simp [hjp2, hex2, hM, objSet, tryWrite, humd, hne2, fsRead_fsWrite_self]
  · unfold update_dialogue_files
    simp [hjp2, hex2, hM, objSet, tryWrite]
  · unfold update_dialogue_files
    simp [hjp2, hex2, hM, objSet, tryWrite, humd]

theorem C5_witness :
    ((save_dialogue_data ["dialogue_data/20250101_120000_cafe_abcd1234.md"]
        ⟨"20250101_120000", "abcd1234"⟩ []
        (.obj [("original_text", JSON.str "hi"), ("key_points", JSON.arr []),
               ("intentions", JSON.arr [])]) "cafe" "goal").2 = none
      ∧ fsRead (save_dialogue_data ["dialogue_data/20250101_120000_cafe_abcd1234.md"]
          ⟨"20250101_120000", "abcd1234"⟩ []
          (.obj [("original_text", JSON.str "hi"), ("key_points", JSON.arr []),
                 ("intentions", JSON.arr [])]) "cafe" "goal").1
          "dialogue_data/20250101_120000_cafe_abcd1234.json"
        = some (.jsonF (.obj (setField
            [("original_text", JSON.str "hi"), ("key_points", JSON.arr []),
             ("intentions", JSON.arr [])] "metadata"
            (fresh_metadata ⟨"20250101_120000", "abcd1234"⟩ "cafe" "goal")))))
    ∧ save_dialogue_data ["dialogue_data/20250101_120000_cafe_abcd1234.json"]
        ⟨"20250101_120000", "abcd1234"⟩ []
        (.obj [("original_text", JSON.str "hi"), ("key_points", JSON.arr []),
               ("intentions", JSON.arr [])]) "cafe" "goal" = ([], none)
    ∧ (save_dialogue_data [] ⟨"20250101_120000", "abcd1234"⟩ []
        (.obj [("original_text", JSON.str "hi"), ("key_points", JSON.arr []),
               ("intentions", JSON.arr [])]) "cafe" "goal").2
        = some ("dialogue_data/20250101_120000_cafe_abcd1234.json",
                "dialogue_data/20250101_120000_cafe_abcd1234.md")
    ∧ ((update_dialogue_files [splitext_base "dialogue_data/p.json" ++ ".md"]
          ⟨"20250101_120000", "abcd1234"⟩
          [("dialogue_data/p.json", .jsonF (.obj [("original_text", JSON.str "o"),
             ("metadata", JSON.obj [("timestamp", JSON.str "T0"), ("context", JSON.str "c"),
                                    ("goal", JSON.str "g")])]))]
          (some "dialogue_data/p.json")
          (.obj [("original_text", JSON.str "e1"), ("key_points", JSON.arr []),
                 ("intentions", JSON.arr [])]) "c" "g").2 = none
      ∧ fsRead (update_dialogue_files [splitext_base "dialogue_data/p.json" ++ ".md"]
          ⟨"20250101_120000", "abcd1234"⟩
          [("dialogue_data/p.json", .jsonF (.obj [("original_text", JSON.str "o"),
             ("metadata", JSON.obj [("timestamp", JSON.str "T0"), ("context", JSON.str "c"),
                                    ("goal", JSON.str "g")])]))]
          (some "dialogue_data/p.json")
          (.obj [("original_text", JSON.str "e1"), ("key_points", JSON.arr []),
                 ("intentions", JSON.arr [])]) "c" "g").1 "dialogue_data/p.json"
          = some (.jsonF (.obj (setField
              [("original_text", JSON.str "e1"), ("key_points", JSON.arr []),
               ("intentions", JSON.arr [])] "metadata"
              (JSON.obj [("timestamp", JSON.str "T0"), ("context", JSON.str "c"),
                         ("goal", JSON.str "g")])))))
    ∧ update_dialogue_files ["dialogue_data/p.json"] ⟨"20250101_120000", "abcd1234"⟩
        [("dialogue_data/p.json", .jsonF (.obj [("original_text", JSON.str "o"),
           ("metadata", JSON.obj [("timestamp", JSON.str "T0"), ("context", JSON.str "c"),
                                  ("goal", JSON.str "g")])]))]
        (some "dialogue_data/p.json")
        (.obj [("original_text", JSON.str "e1"), ("key_points", JSON.arr []),
               ("intentions", JSON.arr [])]) "c" "g"
      = ([("dialogue_data/p.json", .jsonF (.obj [("original_text", JSON.str "o"),
           ("metadata", JSON.obj [("timestamp", JSON.str "T0"), ("context", JSON.str "c"),
                                  ("goal", JSON.str "g")])]))], none)
    ∧ (update_dialogue_files [] ⟨"20250101_120000", "abcd1234"⟩
        [("dialogue_data/p.json", .jsonF (.obj [("original_text", JSON.str "o"),
           ("metadata", JSON.obj [("timestamp", JSON.str "T0"), ("context", JSON.str "c"),
                                  ("goal", JSON.str "g")])]))]
        (some "dialogue_data/p.json")
        (.obj [("original_text", JSON.str "e1"), ("key_points", JSON.arr []),
               ("intentions", JSON.arr [])]) "c" "g").2
      = some ("dialogue_data/p.json", splitext_base "dialogue_data/p.json" ++ ".md") :=
  C5_sentinel_amended ⟨"20250101_120000", "abcd1234"⟩ []
    [("dialogue_data/p.json", .jsonF (.obj [("original_text", JSON.str "o"),
       ("metadata", JSON.obj [("timestamp", JSON.str "T0"), ("context", JSON.str "c"),
                              ("goal", JSON.str "g")])]))]
    [("original_text", JSON.str "hi"), ("key_points", JSON.arr []), ("intentions", JSON.arr [])]
    [("original_text", JSON.str "e1"), ("key_points", JSON.arr []), ("intentions", JSON.arr [])]
    [("original_text", JSON.str "o"),
     ("metadata", JSON.obj [("timestamp", JSON.str "T0"), ("context", JSON.str "c"),
                            ("goal", JSON.str "g")])]
    (JSON.obj [("timestamp", JSON.str "T0"), ("context", JSON.str "c"), ("goal", JSON.str "g")])
    "cafe" "goal" "c" "g"
    "dialogue_data/20250101_120000_cafe_abcd1234.json"
    "dialogue_data/20250101_120000_cafe_abcd1234.md"
    "dialogue_data/p.json"
    ((md_draft_content "cafe" "20250101_120000" "goal"
      (.obj [("original_text", JSON.str "hi"), ("key_points", JSON.arr []),
             ("intentions", JSON.arr [])])).getD "")
    ((md_update_content
      (JSON.obj [("timestamp", JSON.str "T0"), ("context", JSON.str "c"), ("goal", JSON.str "g")])
      "c" "g" (.obj [("original_text", JSON.str "e1"), ("key_points", JSON.arr []),
                     ("intentions", JSON.arr [])])).getD "")
    (by decide) (by decide) rfl (by decide) rfl rfl rfl (by decide)

/-- C5 counterexample: a create, and likewise an update of an existing
record, in which only the markdown write raises returns the `(None, None)`
sentinel even though the structured JSON file was created (resp. rewritten)
by that very call — `(None, None)` does not mean "nothing was persisted to
disk by that call". -/
theorem C5_counterexample :
    (save_dialogue_data ["dialogue_data/20250101_120000_cafe_abcd1234.md"]
        ⟨"20250101_120000", "abcd1234"⟩ []
        (.obj [("original_text", JSON.str "hi"), ("key_points", JSON.arr []),
               ("intentions", JSON.arr [])]) "cafe" "goal").2 = none
    ∧ fsRead (save_dialogue_data ["dialogue_data/20250101_120000_cafe_abcd1234.md"]
        ⟨"20250101_120000", "abcd1234"⟩ []
        (.obj [("original_text", JSON.str "hi"), ("key_points", JSON.arr []),
               ("intentions", JSON.arr [])]) "cafe" "goal").1
        "dialogue_data/20250101_120000_cafe_abcd1234.json" ≠ none
    ∧ (update_dialogue_files ["dialogue_data/p.md"] ⟨"T1", "u1"⟩
        [("dialogue_data/p.json", .jsonF (.obj [("original_text", JSON.str "o"),
           ("metadata", JSON.obj [("timestamp", JSON.str "T0")])]))]
        (some "dialogue_data/p.json")
        (.obj [("original_text", JSON.str "e1"), ("key_points", JSON.arr []),
               ("intentions", JSON.arr [])]) "c" "g").2 = none
    ∧ fsRead (update_dialogue_files ["dialogue_data/p.md"] ⟨"T1", "u1"⟩
        [("dialogue_data/p.json", .jsonF (.obj [("original_text", JSON.str "o"),
           ("metadata", JSON.obj [("timestamp", JSON.str "T0")])]))]
        (some "dialogue_data/p.json")
        (.obj [("original_text", JSON.str "e1"), ("key_points", JSON.arr []),
               ("intentions", JSON.arr [])]) "c" "g").1 "dialogue_data/p.json"
      ≠ fsRead [("dialogue_data/p.json", .jsonF (.obj [("original_text", JSON.str "o"),
           ("metadata", JSON.obj [("timestamp", JSON.str "T0")])]))] "dialogue_data/p.json" := by
  exact ⟨rfl, by decide, by decide, by decide⟩

/-- C3 (amended): the persisted Styled Dialogue's metadata inherits `context`
and `goal` from the origin Draft's metadata, but its creation timestamp is
freshly generated at save time by `save_final_dialogue`; the full metadata
triple therefore equals the origin's only when the timestamps coincide. -/
theorem C3_final_metadata_amended (env : Env) (fs : FS) (dt : Option String)
    (i0 : String × JSON) (ir : List (String × JSON)) (mf : List (String × JSON))
    (user_traits ai_traits ctx gl jp mp mdc : String)
    (hmeta : jlookup (.obj (i0 :: ir)) "metadata" = some (.obj mf))
    (hctx : jlookup (.obj mf) "context" = some (.str ctx))
    (hgl : jlookup (.obj mf) "goal" = some (.str gl))
    (hjp : jp = "final_dialogue_data/" ++ (env.timestamp ++ "_" ++ safe_context_frag ctx ++ "_final_" ++ env.uuid8) ++ ".json")
    (hmp : mp = "final_dialogue_data/" ++ (env.timestamp ++ "_" ++ safe_context_frag ctx ++ "_final_" ++ env.uuid8) ++ ".md")
    (hmdc : md_final_content ctx env.timestamp gl user_traits ai_traits dt (.obj (i0 :: ir))
      = some mdc) :
    (save_final_dialogue [] env fs dt (.obj (i0 :: ir)) user_traits ai_traits).2 = some (jp, mp)
    ∧ fsRead (save_final_dialogue [] env fs dt (.obj (i0 :: ir)) user_traits ai_traits).1 jp
      = some (.jsonF (.obj
          [("final_text", optStr dt), ("user_traits", .str user_traits),
           ("ai_traits", .str ai_traits), ("original_dialogue", .obj (i0 :: ir)),
           ("metadata", .obj [("timestamp", .str env.timestamp),
                              ("context", .str ctx), ("goal", .str gl)])])) := by
  subst hjp hmp
  have hne := json_md_suffix_ne
    ("final_dialogue_data/" ++ (env.timestamp ++ "_" ++ safe_context_frag ctx ++ "_final_" ++ env.uuid8))
  unfold save_final_dialogue
  simp only [pyTruthy, List.isEmpty_cons, Bool.not_false, Bool.true_and, hmeta, Option.isSome_some,
    if_pos, Option.getD_some, py_dict_get, jget, hctx, hgl]
  simp only [tryWrite, List.contains, List.elem_eq_mem, List.not_mem_nil, decide_not]
  simp only [hmdc]
  simp only [decide_False, Bool.false_eq_true, if_false]
  refine ⟨trivial, ?_⟩
  rw [fsRead_fsWrite_other _ _ _ _ hne, fsRead_fsWrite_self]

theorem C3_witness :
    (save_final_dialogue [] ⟨"T1", "u1"⟩ [] (some "styled")
        (.obj [("original_text", JSON.str "hi"),
               ("metadata", JSON.obj [("timestamp", JSON.str "T0"), ("context", JSON.str "c"),
                                      ("goal", JSON.str "g")])]) "u" "a").2
      = some ("final_dialogue_data/T1_c_final_u1.json", "final_dialogue_data/T1_c_final_u1.md")
    ∧ fsRead (save_final_dialogue [] ⟨"T1", "u1"⟩ [] (some "styled")
        (.obj [("original_text", JSON.str "hi"),
               ("metadata", JSON.obj [("timestamp", JSON.str "T0"), ("context", JSON.str "c"),
                                      ("goal", JSON.str "g")])]) "u" "a").1
        "final_dialogue_data/T1_c_final_u1.json"
      = some (.jsonF (.obj
          [("final_text", optStr (some "styled")), ("user_traits", JSON.str "u"),
           ("ai_traits", JSON.str "a"),
           ("original_dialogue", .obj [("original_text", JSON.str "hi"),
              ("metadata", JSON.obj [("timestamp", JSON.str "T0"), ("context", JSON.str "c"),
                                     ("goal", JSON.str "g")])]),
           ("metadata", .obj [("timestamp", JSON.str "T1"),
                              ("context", JSON.str "c"), ("goal", JSON.str "g")])])) :=
  C3_final_metadata_amended ⟨"T1", "u1"⟩ [] (some "styled")
    ("original_text", JSON.str "hi")
    [("metadata", JSON.obj [("timestamp", JSON.str "T0"), ("context", JSON.str "c"),
                            ("goal", JSON.str "g")])]
    [("timestamp", JSON.str "T0"), ("context", JSON.str "c"), ("goal", JSON.str "g")]
    "u" "a" "c" "g" "final_dialogue_data/T1_c_final_u1.json" "final_dialogue_data/T1_c_final_u1.md"
    ((md_final_content "c" "T1" "g" "u" "a" (some "styled")
      (.obj [("original_text", JSON.str "hi"),
             ("metadata", JSON.obj [("timestamp", JSON.str "T0"), ("context", JSON.str "c"),
                                    ("goal", JSON.str "g")])])).getD "")
    rfl rfl rfl (by decide) (by decide) rfl

/-- C3 counterexample: a Styled Dialogue persisted from a Draft whose
metadata timestamp is `T0` is stored with metadata timestamp `T1` (the save
time), so its metadata does not equal the origin Draft's metadata
unchanged. -/
theorem C3_counterexample :
    fsRead (save_final_dialogue [] ⟨"T1", "u1"⟩ [] (some "styled")
        (.obj [("original_text", JSON.str "hi"),
               ("metadata", JSON.obj [("timestamp", JSON.str "T0"), ("context", JSON.str "c"),
                                      ("goal", JSON.str "g")])]) "u" "a").1
        "final_dialogue_data/T1_c_final_u1.json"
      = some (.jsonF (.obj
          [("final_text", JSON.str "styled"), ("user_traits", JSON.str "u"),
           ("ai_traits", JSON.str "a"),
           ("original_dialogue", .obj [("original_text", JSON.str "hi"),
              ("metadata", JSON.obj [("timestamp", JSON.str "T0"), ("context", JSON.str "c"),
                                     ("goal", JSON.str "g")])]),
           ("metadata", .obj [("timestamp", JSON.str "T1"),
                              ("context", JSON.str "c"), ("goal", JSON.str "g")])]))
    ∧ JSON.obj [("timestamp", JSON.str "T1"), ("context", JSON.str "c"), ("goal", JSON.str "g")]
      ≠ JSON.obj [("timestamp", JSON.str "T0"), ("context", JSON.str "c"), ("goal", JSON.str "g")] := by
  exact ⟨by decide, by decide⟩

theorem update_dialogue_files_spec (env : Env) (fs : FS) (jp : String)
    (dflds ofields : List (String × JSON)) (M : JSON) (context goal md : String)
    (hjp : jp ≠ "")
    (hex : fsRead fs jp = some (.jsonF (.obj ofields)))
    (hM : jlookup (.obj ofields) "metadata" = some M)
    (hmd : md_update_content M context goal (.obj dflds) = some md)
    (hmdne : splitext_base jp ++ ".md" ≠ jp) :
    update_dialogue_files [] env fs (some jp) (.obj dflds) context goal
      = (fsWrite (fsWrite fs jp (.jsonF (.obj (setField dflds "metadata" M))))
          (splitext_base jp ++ ".md") (.textF md),
         some (jp, splitext_base jp ++ ".md")) := by
  unfold update_dialogue_files
  simp [hjp, hex, hM, objSet, tryWrite, hmd]

theorem update_final_dialogue_files_spec (env : Env) (fs : FS) (jp : String)
    (g0 : List (String × JSON)) (dt : Option String) (i0 : String × JSON)
    (ir : List (String × JSON)) (Md : JSON) (user_traits ai_traits md : String)
    (hjp : jp ≠ "")
    (hex : fsRead fs jp = some (.jsonF (.obj g0)))
    (hMd : jlookup (.obj (i0 :: ir)) "metadata" = some Md)
    (hmd : md_update_final_content Md user_traits ai_traits dt (.obj (i0 :: ir)) = some md)
    (hmdne : splitext_base jp ++ ".md" ≠ jp) :
    update_final_dialogue_files [] env fs (some jp) dt (.obj (i0 :: ir)) user_traits ai_traits
      = (fsWrite (fsWrite fs jp (.jsonF (.obj
            [("final_text", optStr dt), ("user_traits", .str user_traits),
             ("ai_traits", .str ai_traits), ("original_dialogue", .obj (i0 :: ir)),
             ("metadata", Md)])))
          (splitext_base jp ++ ".md") (.textF md),
         some (jp, splitext_base jp ++ ".md")) := by
  unfold update_final_dialogue_files
  simp [hjp, hex, hMd, pyTruthy, tryWrite, hmd]

/-- C4 (amended): `update_dialogue_files` on an existing structured path
forces the rewritten record's metadata to the value recovered from the
existing structured file — never the caller's — and two successive such
updates preserve the recovered metadata (hence its creation timestamp)
exactly; `update_final_dialogue_files`, by contrast, never reads the
existing file: it stores the metadata taken from the caller-supplied origin
draft. -/
theorem C4_update_metadata_amended (env1 env2 env3 : Env) (fs fs3 : FS) (jp jp3 : String)
    (dflds dflds2 ofields g0 : List (String × JSON)) (M Md : JSON)
    (context goal context2 goal2 md1 md2 md3 : String) (dt3 : Option String)
    (i0 : String × JSON) (ir : List (String × JSON)) (ut3 at3 : String)
    (hjp : jp ≠ "")
    (hex : fsRead fs jp = some (.jsonF (.obj ofields)))
    (hM : jlookup (.obj ofields) "metadata" = some M)
    (hmd1 : md_update_content M context goal (.obj dflds) = some md1)
    (hmd2 : md_update_content M context2 goal2 (.obj dflds2) = some md2)
    (hmdne : splitext_base jp ++ ".md" ≠ jp)
    (hjp3 : jp3 ≠ "")
    (hex3 : fsRead fs3 jp3 = some (.jsonF (.obj g0)))
    (hMd : jlookup (.obj (i0 :: ir)) "metadata" = some Md)
    (hmd3 : md_update_final_content Md ut3 at3 dt3 (.obj (i0 :: ir)) = some md3)
    (hmdne3 : splitext_base jp3 ++ ".md" ≠ jp3) :
    (update_dialogue_files [] env1 fs (some jp) (.obj dflds) context goal).2
        = some (jp, splitext_base jp ++ ".md")
    ∧ fsRead (update_dialogue_files [] env1 fs (some jp) (.obj dflds) context goal).1 jp
        = some (.jsonF (.obj (setField dflds "metadata" M)))
    ∧ fsRead (update_dialogue_files [] env2
          (update_dialogue_files [] env1 fs (some jp) (.obj dflds) context goal).1
          (some jp) (.obj dflds2) context2 goal2).1 jp
        = some (.jsonF (.obj (setField dflds2 "metadata" M)))
    ∧ fsRead (update_final_dialogue_files [] env3 fs3 (some jp3) dt3 (.obj (i0 :: ir)) ut3 at3).1 jp3
        = some (.jsonF (.obj
            [("final_text", optStr dt3), ("user_traits", .str ut3),
             ("ai_traits", .str at3), ("original_dialogue", .obj (i0 :: ir)),
             ("metadata", Md)])) := by
  have h1 := update_dialogue_files_spec env1 fs jp dflds ofields M context goal md1
    hjp hex hM hmd1 hmdne
  have hread1 : fsRead (update_dialogue_files [] env1 fs (some jp) (.obj dflds) context goal).1 jp
      = some (.jsonF (.obj (setField dflds "metadata" M))) := by
    rw [h1]
    rw [fsRead_fsWrite_other _ _ _ _ (Ne.symm hmdne), fsRead_fsWrite_self]
  have h2 := update_dialogue_files_spec env2
    (update_dialogue_files [] env1 fs (some jp) (.obj dflds) context goal).1 jp
    dflds2 (setField dflds "metadata" M) M context2 goal2 md2
    hjp hread1 (jlookup_setField_self dflds "metadata" M) hmd2 hmdne
  have h3 := update_final_dialogue_files_spec env3 fs3 jp3 g0 dt3 i0 ir Md ut3 at3 md3
    hjp3 hex3 hMd hmd3 hmdne3
  refine ⟨by rw [h1], hread1, ?_, ?_⟩
  · rw [h2]
    rw [fsRead_fsWrite_other _ _ _ _ (Ne.symm hmdne), fsRead_fsWrite_self]
  · rw [h3]
    rw [fsRead_fsWrite_other _ _ _ _ (Ne.symm hmdne3), fsRead_fsWrite_self]

theorem C4_witness :
    (update_dialogue_files [] ⟨"T1", "u1"⟩
        [("dialogue_data/p.json", .jsonF (.obj [("original_text", JSON.str "o"),
           ("metadata", JSON.obj [("timestamp", JSON.str "T0"), ("context", JSON.str "c"),
                                  ("goal", JSON.str "g")])]))]
        (some "dialogue_data/p.json")
        (.obj [("original_text", JSON.str "e1"), ("key_points", JSON.arr []),
               ("intentions", JSON.arr [])]) "c" "g").2
      = some ("dialogue_data/p.json", splitext_base "dialogue_data/p.json" ++ ".md")
    ∧ fsRead (update_dialogue_files [] ⟨"T1", "u1"⟩
        [("dialogue_data/p.json", .jsonF (.obj [("original_text", JSON.str "o"),
           ("metadata", JSON.obj [("timestamp", JSON.str "T0"), ("context", JSON.str "c"),
                                  ("goal", JSON.str "g")])]))]
        (some "dialogue_data/p.json")
        (.obj [("original_text", JSON.str "e1"), ("key_points", JSON.arr []),
               ("intentions", JSON.arr [])]) "c" "g").1 "dialogue_data/p.json"
      = some (.jsonF (.obj (setField
          [("original_text", JSON.str "e1"), ("key_points", JSON.arr []),
           ("intentions", JSON.arr [])] "metadata"
          (JSON.obj [("timestamp", JSON.str "T0"), ("context", JSON.str "c"),
                     ("goal", JSON.str "g")]))))
    ∧ fsRead (update_dialogue_files [] ⟨"T2", "u2"⟩
        (update_dialogue_files [] ⟨"T1", "u1"⟩
          [("dialogue_data/p.json", .jsonF (.obj [("original_text", JSON.str "o"),
             ("metadata", JSON.obj [("timestamp", JSON.str "T0"), ("context", JSON.str "c"),
                                    ("goal", JSON.str "g")])]))]
          (some "dialogue_data/p.json")
          (.obj [("original_text", JSON.str "e1"), ("key_points", JSON.arr []),
                 ("intentions", JSON.arr [])]) "c" "g").1
        (some "dialogue_data/p.json")
        (.obj [("original_text", JSON.str "e2"), ("key_points", JSON.arr []),
               ("intentions", JSON.arr [])]) "c" "g").1 "dialogue_data/p.json"
      = some (.jsonF (.obj (setField
          [("original_text", JSON.str "e2"), ("key_points", JSON.arr []),
           ("intentions", JSON.arr [])] "metadata"
          (JSON.obj [("timestamp", JSON.str "T0"), ("context", JSON.str "c"),
                     ("goal", JSON.str "g")]))))
    ∧ fsRead (update_final_dialogue_files [] ⟨"T3", "u3"⟩
        [("final_dialogue_data/q.json", .jsonF (.obj [("final_text", JSON.str "old"),
           ("metadata", JSON.obj [("timestamp", JSON.str "F0")])]))]
        (some "final_dialogue_data/q.json") (some "styled2")
        (.obj (("original_text", JSON.str "hi") ::
          [("metadata", JSON.obj [("timestamp", JSON.str "D0"), ("context", JSON.str "cc"),
                                  ("goal", JSON.str "gg")])])) "u" "a").1
        "final_dialogue_data/q.json"
      = some (.jsonF (.obj
          [("final_text", optStr (some "styled2")), ("user_traits", JSON.str "u"),
           ("ai_traits", JSON.str "a"),
           ("original_dialogue", .obj (("original_text", JSON.str "hi") ::
             [("metadata", JSON.obj [("timestamp", JSON.str "D0"), ("context", JSON.str "cc"),
                                     ("goal", JSON.str "gg")])])),
           ("metadata", JSON.obj [("timestamp", JSON.str "D0"), ("context", JSON.str "cc"),
                                  ("goal", JSON.str "gg")])])) :=
  C4_update_metadata_amended ⟨"T1", "u1"⟩ ⟨"T2", "u2"⟩ ⟨"T3", "u3"⟩
    [("dialogue_data/p.json", .jsonF (.obj [("original_text", JSON.str "o"),
       ("metadata", JSON.obj [("timestamp", JSON.str "T0"), ("context", JSON.str "c"),
                              ("goal", JSON.str "g")])]))]
    [("final_dialogue_data/q.json", .jsonF (.obj [("final_text", JSON.str "old"),
       ("metadata", JSON.obj [("timestamp", JSON.str "F0")])]))]
    "dialogue_data/p.json" "final_dialogue_data/q.json"
    [("original_text", JSON.str "e1"), ("key_points", JSON.arr []), ("intentions", JSON.arr [])]
    [("original_text", JSON.str "e2"), ("key_points", JSON.arr []), ("intentions", JSON.arr [])]
    [("original_text", JSON.str "o"),
     ("metadata", JSON.obj [("timestamp", JSON.str "T0"), ("context", JSON.str "c"),
                            ("goal", JSON.str "g")])]
    [("final_text", JSON.str "old"), ("metadata", JSON.obj [("timestamp", JSON.str "F0")])]
    (JSON.obj [("timestamp", JSON.str "T0"), ("context", JSON.str "c"), ("goal", JSON.str "g")])
    (JSON.obj [("timestamp", JSON.str "D0"), ("context", JSON.str "cc"), ("goal", JSON.str "gg")])
    "c" "g" "c" "g"
    ((md_update_content
      (JSON.obj [("timestamp", JSON.str "T0"), ("context", JSON.str "c"), ("goal", JSON.str "g")])
      "c" "g" (.obj [("original_text", JSON.str "e1"), ("key_points", JSON.arr []),
                     ("intentions", JSON.arr [])])).getD "")
    ((md_update_content
      (JSON.obj [("timestamp", JSON.str "T0"), ("context", JSON.str "c"), ("goal", JSON.str "g")])
      "c" "g" (.obj [("original_text", JSON.str "e2"), ("key_points", JSON.arr []),
                     ("intentions", JSON.arr [])])).getD "")
    ((md_update_final_content
      (JSON.obj [("timestamp", JSON.str "D0"), ("context", JSON.str "cc"), ("goal", JSON.str "gg")])
      "u" "a" (some "styled2")
      (.obj (("original_text", JSON.str "hi") ::
        [("metadata", JSON.obj [("timestamp", JSON.str "D0"), ("context", JSON.str "cc"),
                                ("goal", JSON.str "gg")])]))).getD "")
    (some "styled2") ("original_text", JSON.str "hi")
    [("metadata", JSON.obj [("timestamp", JSON.str "D0"), ("context", JSON.str "cc"),
                            ("goal", JSON.str "gg")])]
    "u" "a"
    (by decide) rfl rfl rfl rfl (by decide) (by decide) rfl rfl rfl (by decide)

/-- C4 counterexample: `update_final_dialogue_files` on an existing
structured path stores metadata taken from the caller-supplied draft (here:
fresh metadata with save-time timestamp T1, since the draft is None), not
the metadata recovered from the existing file (timestamp T0); a second
update at time T2 then changes the stored timestamp again, so two successive
updates on the same structured path do not preserve the original creation
timestamp. -/
theorem C4_counterexample :
    fsRead (update_final_dialogue_files [] ⟨"T1", "u1"⟩
        [("final_dialogue_data/p.json", .jsonF (.obj [("final_text", JSON.str "old"),
           ("metadata", JSON.obj [("timestamp", JSON.str "T0")])]))]
        (some "final_dialogue_data/p.json") (some "new") JSON.null "u" "a").1
        "final_dialogue_data/p.json"
      = some (.jsonF (.obj
          [("final_text", JSON.str "new"), ("user_traits", JSON.str "u"),
           ("ai_traits", JSON.str "a"), ("original_dialogue", JSON.null),
           ("metadata", JSON.obj [("timestamp", JSON.str "T1"), ("context", JSON.str ""),
                                  ("goal", JSON.str "")])]))
    ∧ JSON.obj [("timestamp", JSON.str "T1"), ("context", JSON.str ""), ("goal", JSON.str "")]
        ≠ JSON.obj [("timestamp", JSON.str "T0")]
    ∧ fsRead (update_final_dialogue_files [] ⟨"T2", "u2"⟩
        (update_final_dialogue_files [] ⟨"T1", "u1"⟩
          [("final_dialogue_data/p.json", .jsonF (.obj [("final_text", JSON.str "old"),
             ("metadata", JSON.obj [("timestamp", JSON.str "T0")])]))]
          (some "final_dialogue_data/p.json") (some "new") JSON.null "u" "a").1
        (some "final_dialogue_data/p.json") (some "new2") JSON.null "u" "a").1
        "final_dialogue_data/p.json"
      = some (.jsonF (.obj
          [("final_text", JSON.str "new2"), ("user_traits", JSON.str "u"),
           ("ai_traits", JSON.str "a"), ("original_dialogue", JSON.null),
           ("metadata", JSON.obj [("timestamp", JSON.str "T2"), ("context", JSON.str ""),
                                  ("goal", JSON.str "")])]))
    ∧ (JSON.str "T2") ≠ (JSON.str "T1") := by
  exact ⟨by decide, by decide, by decide, by decide⟩

/-- C6 (amended): confirming an edit identical to the stored Draft triggers
no persistence call as long as the session is not already dirty — along any
action sequence that never submits a differing edit no update is ever
invoked — but once a differing edit has set the dirty flag, the flag is
never cleared by persistence, so every later confirm triggers an update
even when the submitted edit is identical to the stored content. -/
theorem C6_dirty_check_amended (s s2 : EditLoopState) (d : DraftContent)
    (acts : List EditAction)
    (hclean : s.dialogue_edited = false)
    (hdirty : s2.dialogue_edited = true)
    (hacts : ∀ a ∈ acts, a = .confirm ∨ a = .edit d) :
    (confirm_step (edit_step s s.dialogue_data)).update_calls = s.update_calls
    ∧ run_edit_loop (init_edit_state d) acts = init_edit_state d
    ∧ (confirm_step (edit_step s2 s2.dialogue_data)).update_calls = s2.update_calls + 1 := by
  refine ⟨?_, ?_, ?_⟩
  · simp [edit_step, confirm_step, hclean]
  · induction acts with
    | nil => rfl
    | cons a rest ih =>
      have hstep : ∀ b, (b = EditAction.confirm ∨ b = EditAction.edit d) →
          run_edit_loop (init_edit_state d) (b :: rest) = run_edit_loop (init_edit_state d) rest := by
        intro b hb
        rcases hb with hb | hb <;> subst hb
        · show run_edit_loop (confirm_step (init_edit_state d)) rest = _
          simp [confirm_step, init_edit_state]
        · show run_edit_loop (edit_step (init_edit_state d) d) rest = _
          simp [edit_step, init_edit_state]
      rw [hstep a (hacts a (List.mem_cons_self a rest))]
      exact ih (fun b hb => hacts b (List.mem_cons_of_mem a hb))
  · simp [edit_step, confirm_step, hdirty]

theorem C6_witness :
    (confirm_step (edit_step
        { dialogue_data := ⟨"text", ["k"], ["i"]⟩, dialogue_edited := false, update_calls := 0 }
        ({ dialogue_data := ⟨"text", ["k"], ["i"]⟩, dialogue_edited := false,
           update_calls := 0 } : EditLoopState).dialogue_data)).update_calls
      = ({ dialogue_data := ⟨"text", ["k"], ["i"]⟩, dialogue_edited := false,
           update_calls := 0 } : EditLoopState).update_calls
    ∧ run_edit_loop (init_edit_state ⟨"text", ["k"], ["i"]⟩)
        [.confirm, .edit ⟨"text", ["k"], ["i"]⟩, .confirm]
      = init_edit_state ⟨"text", ["k"], ["i"]⟩
    ∧ (confirm_step (edit_step
        { dialogue_data := ⟨"text", ["k"], ["i"]⟩, dialogue_edited := true, update_calls := 1 }
        ({ dialogue_data := ⟨"text", ["k"], ["i"]⟩, dialogue_edited := true,
           update_calls := 1 } : EditLoopState).dialogue_data)).update_calls
      = ({ dialogue_data := ⟨"text", ["k"], ["i"]⟩, dialogue_edited := true,
           update_calls := 1 } : EditLoopState).update_calls + 1 :=
  C6_dirty_check_amended
    { dialogue_data := ⟨"text", ["k"], ["i"]⟩, dialogue_edited := false, update_calls := 0 }
    { dialogue_data := ⟨"text", ["k"], ["i"]⟩, dialogue_edited := true, update_calls := 1 }
    ⟨"text", ["k"], ["i"]⟩
    [.confirm, .edit ⟨"text", ["k"], ["i"]⟩, .confirm]
    rfl rfl (by decide)

/-- C6 counterexample: after the reachable sequence [edit X, confirm] the
stored draft is X and one update has run; submitting the edit X again —
identical to the stored content field by field — and confirming triggers a
second update call, because the dirty flag set by the first edit is never
cleared. -/
theorem C6_counterexample :
    (run_edit_loop (init_edit_state ⟨"a", [], []⟩)
        [.edit ⟨"b", [], []⟩, .confirm]).update_calls = 1
    ∧ (run_edit_loop (init_edit_state ⟨"a", [], []⟩)
        [.edit ⟨"b", [], []⟩, .confirm]).dialogue_data = ⟨"b", [], []⟩
    ∧ (confirm_step (edit_step
        (run_edit_loop (init_edit_state ⟨"a", [], []⟩) [.edit ⟨"b", [], []⟩, .confirm])
        (run_edit_loop (init_edit_state ⟨"a", [], []⟩)
          [.edit ⟨"b", [], []⟩, .confirm]).dialogue_data)).update_calls = 2 := by
  exact ⟨by decide, by decide, by decide⟩

/-- C7: in automatic mode, once the draft generation and the create step
have succeeded (a saved path pair exists), the Style Agent step is taken if
and only if both persona fields are non-empty; if either is empty the
controller reports the configuration warning, and in neither case does it
report an error. -/
theorem C7_automatic_mode (gw : String → Except String String) (env1 env2 : Env)
    (faults : List String) (fs : FS)
    (context dialogue_mode goal language difficulty : String) (num_turns : Nat)
    (user_traits ai_traits : String)
    (hsaved : (generate_click gw env1 env2 faults fs "自动模式" context dialogue_mode goal
        language difficulty num_turns user_traits ai_traits).saved_path.isSome = true) :
    ((generate_click gw env1 env2 faults fs "自动模式" context dialogue_mode goal
        language difficulty num_turns user_traits ai_traits).outcome
        = .autoStyled ↔ (user_traits ≠ "" ∧ ai_traits ≠ ""))
    ∧ ((generate_click gw env1 env2 faults fs "自动模式" context dialogue_mode goal
        language difficulty num_turns user_traits ai_traits).outcome
        = .autoWarning ↔ (user_traits = "" ∨ ai_traits = ""))
    ∧ (generate_click gw env1 env2 faults fs "自动模式" context dialogue_mode goal
        language difficulty num_turns user_traits ai_traits).outcome ≠ .genFailed
    ∧ (generate_click gw env1 env2 faults fs "自动模式" context dialogue_mode goal
        language difficulty num_turns user_traits ai_traits).outcome ≠ .inputError := by
  unfold generate_click at hsaved ⊢
  by_cases h0 : context = "" ∨ goal = ""
  · rw [if_pos h0] at hsaved
    simp at hsaved
  · rw [if_neg h0] at hsaved ⊢
    by_cases h1 : pyTruthy (generate_dialogue gw context dialogue_mode goal language
        difficulty num_turns)
      ∧ (jlookup (generate_dialogue gw context dialogue_mode goal language difficulty
          num_turns) "original_text").isSome
    · rw [if_pos h1] at hsaved ⊢
      rcases hs : save_dialogue_data faults env1 fs
        (generate_dialogue gw context dialogue_mode goal language difficulty num_turns)
        context goal with ⟨fs1, sp⟩
      simp only [hs] at hsaved ⊢
      cases sp with
      | none => simp at hsaved
      | some pr =>
        by_cases hu : user_traits = "" <;> by_cases ha : ai_traits = "" <;>
          simp [hu, ha]
    · rw [if_neg h1] at hsaved
      simp at hsaved

theorem C7_witness :
    ((generate_click
        (fun _ => .ok "\x7b\"original_text\": \"hi\", \"key_points\": [], \"intentions\": []\x7d")
        ⟨"T1", "u1"⟩ ⟨"T2", "u2"⟩ [] [] "自动模式" "cafe" "AI先说" "goal" "英文" "B1" 5
        "shy" "outgoing").outcome = .autoStyled ↔ (("shy" : String) ≠ "" ∧ ("outgoing" : String) ≠ ""))
    ∧ ((generate_click
        (fun _ => .ok "\x7b\"original_text\": \"hi\", \"key_points\": [], \"intentions\": []\x7d")
        ⟨"T1", "u1"⟩ ⟨"T2", "u2"⟩ [] [] "自动模式" "cafe" "AI先说" "goal" "英文" "B1" 5
        "shy" "outgoing").outcome = .autoWarning ↔ (("shy" : String) = "" ∨ ("outgoing" : String) = ""))
    ∧ (generate_click
        (fun _ => .ok "\x7b\"original_text\": \"hi\", \"key_points\": [], \"intentions\": []\x7d")
        ⟨"T1", "u1"⟩ ⟨"T2", "u2"⟩ [] [] "自动模式" "cafe" "AI先说" "goal" "英文" "B1" 5
        "shy" "outgoing").outcome ≠ .genFailed
    ∧ (generate_click
        (fun _ => .ok "\x7b\"original_text\": \"hi\", \"key_points\": [], \"intentions\": []\x7d")
        ⟨"T1", "u1"⟩ ⟨"T2", "u2"⟩ [] [] "自动模式" "cafe" "AI先说" "goal" "英文" "B1" 5
        "shy" "outgoing").outcome ≠ .inputError :=
  C7_automatic_mode
    (fun _ => .ok "\x7b\"original_text\": \"hi\", \"key_points\": [], \"intentions\": []\x7d")
    ⟨"T1", "u1"⟩ ⟨"T2", "u2"⟩ [] [] "cafe" "AI先说" "goal" "英文" "B1" 5 "shy" "outgoing"
    (by decide)

end AgentResponse
